import Mathlib

/-!
Verification development for the Trinity demo mock-data interceptor
(`src/mock-data.js`).

The JavaScript source is shallowly embedded below.  Conventions used
throughout the embedding:

* `Math.random()` is modelled by an explicit stream of rational draws
  (`Rng`): a function `ℕ → ℚ` together with the position of the next draw.
  A stream is *valid* when every draw lies in `[0, 1)`, which is exactly
  the contract of `Math.random()`.  Every function of the source that
  consumes randomness threads an `Rng` through in the order in which the
  JavaScript evaluates its `Math.random()` calls.
* JavaScript numbers are modelled by `ℚ` (the source only performs
  +, -, *, /, floor and comparisons on values well inside the exactly
  representable double range; none of the claims concern float artifacts).
* `Date.now()` is a parameter `now : ℤ` (epoch milliseconds).  ISO-8601
  timestamp strings are modelled by the instant they denote
  (`Json.isoTime`, or an `ℤ` field), since `new Date(iso).getTime()`
  recovers that instant exactly.
* Fallible or absent JavaScript values (`null` / `undefined`) are
  modelled with `Option`.
-/

namespace MockData

/-- Stream of pseudo-random draws: `stream n` is the value returned by the
`n`-th call of `Math.random()`, `pos` the index of the next call. -/
structure Rng where
  stream : ℕ → ℚ
  pos : ℕ

/-- Contract of `Math.random()`: every draw lies in `[0, 1)`. -/
def Rng.Valid (rng : Rng) : Prop := ∀ n : ℕ, 0 ≤ rng.stream n ∧ rng.stream n < 1

/-- Consume one draw. -/
def Rng.next (rng : Rng) : ℚ × Rng :=
  (rng.stream rng.pos, ⟨rng.stream, rng.pos + 1⟩)

/-- Source constant `DAY_MS = 86400000`. -/
def DAY_MS : ℤ := 86400000

/-- Source constant `HOUR_MS = 3600000`. -/
def HOUR_MS : ℤ := 3600000

/-- Source helper `rand(min, max) = Math.random() * (max - min) + min`. -/
def rand (min max : ℚ) (rng : Rng) : ℚ × Rng :=
  let (r, rng') := rng.next
  (r * (max - min) + min, rng')

/-- Source helper `randInt(min, max) = Math.floor(rand(min, max + 1))`. -/
def randInt (min max : ℤ) (rng : Rng) : ℤ × Rng :=
  let (x, rng') := rand min (max + 1) rng
  (⌊x⌋, rng')

/-- Source helper `pick(arr) = arr[randInt(0, arr.length - 1)]`.  The extra
`default` argument stands for the `undefined` a JavaScript out-of-range
index would produce; it is never hit on the non-empty catalogs the source
uses. -/
def pick {α : Type} (arr : List α) (default : α) (rng : Rng) : α × Rng :=
  let (i, rng') := randInt 0 ((arr.length : ℤ) - 1) rng
  (arr.getD i.toNat default, rng')

/-- JavaScript `Math.round(x) = ⌊x + 1/2⌋` (round half towards +∞). -/
def jsRound (q : ℚ) : ℤ := ⌊q + 1/2⌋

/-- Source helper `round2(n) = Math.round(n * 100) / 100`. -/
def round2 (n : ℚ) : ℚ := (jsRound (n * 100) : ℚ) / 100

/-- Source helper `round4(n) = Math.round(n * 10000) / 10000`. -/
def round4 (n : ℚ) : ℚ := (jsRound (n * 10000) : ℚ) / 10000

/-- Prefix test on character lists (structural, so that concrete requests
evaluate inside proofs). -/
def charIsPrefix : List Char → List Char → Bool
  | [], _ => true
  | _ :: _, [] => false
  | a :: as, b :: bs => a == b && charIsPrefix as bs

/-- Substring test on character lists. -/
def charIsInfix (pat : List Char) : List Char → Bool
  | [] => pat.isEmpty
  | a :: rest => charIsPrefix pat (a :: rest) || charIsInfix pat rest

/-- JavaScript `String.prototype.includes` (substring test). -/
def jsIncludes (s pat : String) : Bool := charIsInfix pat.toList s.toList

/-- JavaScript `String.prototype.startsWith`. -/
def jsStartsWith (s pre : String) : Bool := charIsPrefix pre.toList s.toList

/-- Split a character list at every occurrence of `c` (the behaviour of
`String.prototype.split` with a one-character separator). -/
def splitChar (c : Char) : List Char → List (List Char)
  | [] => [[]]
  | a :: rest =>
    let r := splitChar c rest
    if a = c then [] :: r
    else (a :: r.headD []) :: r.tail

/-- Re-join components with `c` (inverse of `splitChar` away from the
separators). -/
def joinChar (c : Char) : List (List Char) → List Char
  | [] => []
  | [l] => l
  | l :: rest => l ++ c :: joinChar c rest

/-- Strip leading and trailing whitespace (JavaScript's number coercion
and `parseInt` both ignore it). -/
def charTrim (l : List Char) : List Char :=
  ((l.dropWhile Char.isWhitespace).reverse.dropWhile Char.isWhitespace).reverse

/-- Lookup in a JavaScript object literal used as a table (`obj[key]`),
returning `none` for `undefined`. -/
def lookupAssoc {α : Type} (table : List (String × α)) (key : String) : Option α :=
  match table with
  | [] => none
  | (k, v) :: rest => if k = key then some v else lookupAssoc rest key

/-- JavaScript `a || b` on a possibly-`undefined` number `a`: `undefined`
and `0` (and `NaN`, which cannot arise here) are falsy. -/
def jsOrQ (a : Option ℚ) (b : ℚ) : ℚ :=
  match a with
  | some q => if q = 0 then b else q
  | none => b

/-- JavaScript `a || b` on a possibly-`null` string `a`: `null` and the
empty string are falsy. -/
def jsOrString (a : Option String) (b : String) : String :=
  match a with
  | some s => if s = "" then b else s
  | none => b

/-- Longest prefix of decimal digits, as a number (`none` when there is no
leading digit). -/
def digitsPrefixVal (l : List Char) : Option ℕ :=
  match l with
  | [] => none
  | c :: _ =>
    if c.isDigit then
      some ((l.takeWhile Char.isDigit).foldl (fun acc d => acc * 10 + (d.toNat - 48)) 0)
    else none

/-- JavaScript `parseInt(s)` for the decimal strings this program feeds it:
leading whitespace is trimmed, an optional sign is read, then the longest
digit prefix; `none` models `NaN`.  (The hexadecimal `0x` form of
`parseInt` never occurs on the query parameters the source parses.) -/
def jsParseInt (s : String) : Option ℤ :=
  match charTrim s.toList with
  | '-' :: rest => (digitsPrefixVal rest).map (fun n => -(n : ℤ))
  | '+' :: rest => (digitsPrefixVal rest).map (fun n => (n : ℤ))
  | l => (digitsPrefixVal l).map (fun n => (n : ℤ))

/-- Model of `new URL(url, base).searchParams.get(key)` for the plain query
strings this program builds: the query is the part of the URL after the
first `?` (with any `#` fragment dropped), split on `&`, each pair split on
its first `=`; the first pair whose name is `key` wins, a bare key yields
the empty string, an absent key yields `none` (JavaScript `null`).
Percent-decoding is not modelled; the dashboard never encodes `limit`. -/
def searchParamsGet (url key : String) : Option String :=
  match splitChar '?' url.toList with
  | [] => none
  | [_] => none
  | _ :: qparts =>
    let query := (splitChar '#' (joinChar '?' qparts)).headD []
    let pairs := splitChar '&' query
    let hits := pairs.filterMap (fun pair =>
      match splitChar '=' pair with
      | [] => none
      | name :: vals =>
        if name = key.toList then some (String.mk (joinChar '=' vals)) else none)
    hits.head?

/-- JavaScript `String(n).padStart(4, '0')` for the trade ids. -/
def pad4 (n : ℕ) : String :=
  let s := toString n
  if s.length < 4 then String.mk (List.replicate (4 - s.length) '0') ++ s else s

-- ═══════════════════════════════════════════════════════════════════════════
-- CONSTANTS (source lines 35-59)
-- ═══════════════════════════════════════════════════════════════════════════

/-- Source constant `CRYPTO_SYMBOLS`. -/
def CRYPTO_SYMBOLS : List String := ["BTC", "ETH", "SOL", "DOGE", "SUI", "LINK", "SEI"]

/-- Source constant `STOCK_SYMBOLS`. -/
def STOCK_SYMBOLS : List String := ["AAPL", "TSLA", "NVDA", "MSFT", "AMZN", "META", "GOOG"]

/-- Source constant `SIDES`. -/
def SIDES : List String := ["LONG", "SHORT"]

/-- Source constant `SETUP_TYPES`. -/
def SETUP_TYPES : List String := ["Breakout", "Reversal", "Continuation", "Mean Reversion"]

/-- Source constant `REGIMES`. -/
def REGIMES : List String := ["Growth", "Expansion", "Neutral", "Contraction", "Recession"]

/-- Source constant `ENTRY_REASONS`. -/
def ENTRY_REASONS : List String :=
  ["Multi-factor confluence detected",
   "Strong momentum breakout confirmed",
   "Mean reversion signal at key level",
   "Trend continuation after pullback",
   "Volume surge with price confirmation",
   "Key support bounce with divergence",
   "Resistance break with follow-through",
   "Oversold bounce in uptrend context"]

/-- Source constant `CRYPTO_PRICES` (reference price per crypto symbol). -/
def CRYPTO_PRICES : List (String × ℚ) :=
  [("BTC", 97250.00), ("ETH", 3420.50), ("SOL", 198.30), ("DOGE", 0.3245),
   ("SUI", 4.12), ("LINK", 24.80), ("SEI", 0.7850)]

/-- Source constant `STOCK_PRICES` (reference price per stock symbol). -/
def STOCK_PRICES : List (String × ℚ) :=
  [("AAPL", 245.30), ("TSLA", 412.80), ("NVDA", 890.50), ("MSFT", 478.20),
   ("AMZN", 225.60), ("META", 612.40), ("GOOG", 192.70)]

/-- Price-table lookup `CRYPTO_PRICES[sym]` as the total function
`generateTrades` applies to its symbols (the generator only looks up
symbols of its own catalog, so the `undefined` branch is never taken;
`0` stands for it). -/
def cryptoPriceOf (sym : String) : ℚ := (lookupAssoc CRYPTO_PRICES sym).getD 0

/-- Price-table lookup `STOCK_PRICES[sym]`, as `cryptoPriceOf`. -/
def stockPriceOf (sym : String) : ℚ := (lookupAssoc STOCK_PRICES sym).getD 0

-- ═══════════════════════════════════════════════════════════════════════════
-- JSON VALUES (shape of the synthesized response bodies)
-- ═══════════════════════════════════════════════════════════════════════════

/-- JSON-serializable payload produced by the mock handlers.  `isoTime ms`
stands for the ISO-8601 timestamp string of the instant `ms` (epoch
milliseconds), and `isoDate ms` for its date-only part
(`isoAt(ms).split('T')[0]`). -/
inductive Json where
  | null
  | bool (b : Bool)
  | num (q : ℚ)
  | str (s : String)
  | isoTime (ms : ℤ)
  | isoDate (ms : ℤ)
  | arr (items : List Json)
  | obj (fields : List (String × Json))

/-- Read a field of a JSON object (first occurrence), `none` otherwise. -/
def Json.getField (j : Json) (key : String) : Option Json :=
  match j with
  | .obj fields => lookupAssoc fields key
  | _ => none

/-- Length of a JSON array, `none` on any other shape. -/
def Json.arrLen (j : Json) : Option ℕ :=
  match j with
  | .arr items => some items.length
  | _ => none

/-- Update a numeric field of a JSON object in place (JavaScript
`obj.key = f(obj.key)` on an existing numeric property keeps the
property order). -/
def Json.modifyNum (j : Json) (key : String) (f : ℚ → ℚ) : Json :=
  match j with
  | .obj fields =>
    .obj (fields.map (fun kv =>
      if kv.1 = key then
        (kv.1, match kv.2 with | .num q => Json.num (f q) | v => v)
      else kv))
  | v => v

-- ═══════════════════════════════════════════════════════════════════════════
-- TRADE GENERATOR (source lines 65-158)
-- ═══════════════════════════════════════════════════════════════════════════

/-- Trade record pushed by `generateTrades`.  `entry_time` / `exit_time`
hold the epoch-millisecond instants whose ISO strings the JavaScript
object stores (`isoAt(entryTs)` / `isoAt(exitTs)`); `exit_price` and
`exit_time` are `none` exactly when the JavaScript fields are `null`. -/
structure Trade where
  id : String
  symbol : String
  side : String
  entry_price : ℚ
  exit_price : Option ℚ
  current_price : ℚ
  pnl_usd : ℚ
  pnl_percent : ℚ
  r_multiple : ℚ
  entry_time : ℤ
  exit_time : Option ℤ
  status : String
  quantity : ℚ
  leverage : ℚ
  stop_loss : ℚ
  take_profit : ℚ
  fee_usd : ℚ
  regime : String
  trinity_score : ℤ
  setup_type : String
  confidence : ℚ
  entry_reason : String
deriving DecidableEq

/-- Body of the `for` loop of `generateTrades` for index `i`: builds one
trade record, consuming `Math.random()` draws in exactly the source's
evaluation order.  The JavaScript local `isOpen = i < openCount` is
inlined at each use.  `exitPrice` is computed unconditionally here (it
consumes no draws); the source computes it only for closed trades and
leaves it `undefined` — and unused — for open ones. -/
def genTrade (symbols : List String) (priceMap : String → ℚ) (leverage : ℚ)
    (openCount : ℕ) (pfx : String) (now : ℤ) (i : ℕ) (rng : Rng) : Trade × Rng :=
  let (sym, rng) :=
    if i < openCount then (symbols.getD (i % symbols.length) "", rng)
    else pick symbols "" rng
  let (side, rng) := pick SIDES "" rng
  let basePrice := priceMap sym
  let volatility : ℚ :=
    if sym = "BTC" then 0.04 else if sym = "ETH" then 0.06
    else if sym = "DOGE" then 0.12 else 0.08
  let (entryOffset, rng) := rand (-volatility) volatility rng
  let entryPrice := round4 (basePrice * (1 + entryOffset))
  let (rRoll, rng) := rng.next
  let (rMult, rng) :=
    if rRoll < 0.35 then ((-1 : ℚ), rng)
    else if rRoll < 0.55 then
      let (x, rng) := rand 0.5 1.5 rng; (round2 x, rng)
    else if rRoll < 0.75 then
      let (x, rng) := rand 1.5 2.5 rng; (round2 x, rng)
    else if rRoll < 0.90 then
      let (x, rng) := rand 2.5 3.5 rng; (round2 x, rng)
    else
      let (x, rng) := rand 3.5 5.0 rng; (round2 x, rng)
  let riskPercent : ℚ := 0.01
  let slDistance := basePrice * riskPercent * (if 10 ≤ leverage then 1 else 2)
  let slPrice :=
    if side = "LONG" then round4 (entryPrice - slDistance)
    else round4 (entryPrice + slDistance)
  let (tpMult, rng) := rand 2.0 4.0 rng
  let tpDistance := slDistance * tpMult
  let tpPrice :=
    if side = "LONG" then round4 (entryPrice + tpDistance)
    else round4 (entryPrice - tpDistance)
  let pnlPercent := rMult * riskPercent * leverage * 100
  let (notional, rng) := rand 2000 5000 rng
  let quantity := round4 (notional / entryPrice)
  let pnlUsd := round2 (notional * pnlPercent / 100)
  let feeUsd := round2 (notional * 0.00035 * 2)
  let exitPrice :=
    if side = "LONG" then round4 (entryPrice * (1 + rMult * riskPercent))
    else round4 (entryPrice * (1 - rMult * riskPercent))
  let (day, rng) := randInt 1 45 rng
  let (hourOff, rng) := randInt 0 23 rng
  let entryTs := now - day * DAY_MS - hourOff * HOUR_MS
  let (exitTs, rng) :=
    if i < openCount then ((none : Option ℤ), rng)
    else
      let (h, rng) := randInt 1 48 rng
      (some (entryTs + h * HOUR_MS), rng)
  let (currentPrice, rng) :=
    if i < openCount then
      let (c, rng) := rand (-0.02) 0.03 rng
      (round4 (entryPrice * (1 + c * (if side = "LONG" then 1 else -1))), rng)
    else (exitPrice, rng)
  let currentPnl :=
    if i < openCount then
      round2 ((if side = "LONG" then currentPrice - entryPrice
               else entryPrice - currentPrice) * quantity * leverage)
    else pnlUsd
  let (regime, rng) := pick REGIMES "" rng
  let (score, rng) := randInt 60 95 rng
  let (setup, rng) := pick SETUP_TYPES "" rng
  let (conf, rng) := rand 0.60 0.95 rng
  let (reason, rng) := pick ENTRY_REASONS "" rng
  (⟨pfx ++ "-" ++ pad4 (i + 1), sym, side, entryPrice,
    (if i < openCount then none else some exitPrice),
    currentPrice,
    (if i < openCount then currentPnl else pnlUsd),
    (if i < openCount then round2 (currentPnl / notional * 100) else round2 pnlPercent),
    (if i < openCount then round2 (currentPnl / (notional * riskPercent)) else rMult),
    entryTs, exitTs,
    (if i < openCount then "open" else "closed"),
    quantity, leverage, slPrice, tpPrice,
    (if i < openCount then round2 (feeUsd / 2) else feeUsd),
    regime, score, setup, round2 conf, reason⟩, rng)

/-- The `for (let i = 0; i < count; i++)` loop of `generateTrades`, run
from index `i` with `n` iterations remaining (`i + n = count`). -/
def genTradesAux (symbols : List String) (priceMap : String → ℚ) (leverage : ℚ)
    (openCount : ℕ) (pfx : String) (now : ℤ) :
    ℕ → ℕ → Rng → List Trade × Rng
  | _, 0, rng => ([], rng)
  | i, n + 1, rng =>
    let tr := genTrade symbols priceMap leverage openCount pfx now i rng
    let rest := genTradesAux symbols priceMap leverage openCount pfx now (i + 1) n tr.2
    (tr.1 :: rest.1, rest.2)

/-- Descending entry-time order used by the final
`trades.sort((a, b) => new Date(b.entry_time) - new Date(a.entry_time))`:
`a` may stay before `b` exactly when the comparator is `≤ 0`, i.e. when
`b.entry_time ≤ a.entry_time`.  JavaScript `Array.prototype.sort` is
stable, as is `List.insertionSort`. -/
def entryTimeDesc (a b : Trade) : Prop := b.entry_time ≤ a.entry_time

instance : DecidableRel entryTimeDesc := fun a b => by
  unfold entryTimeDesc; infer_instance

/-- Source `generateTrades(symbols, priceMap, leverage, count, prefix)`:
`openCount` is 3 for the crypto prefix `"C"` and 2 otherwise, the first
`openCount` generated records are open, and the list is finally sorted by
entry time descending. -/
def generateTrades (symbols : List String) (priceMap : String → ℚ) (leverage : ℚ)
    (count : ℕ) (pfx : String) (now : ℤ) (rng : Rng) : List Trade × Rng :=
  let openCount := if pfx = "C" then 3 else 2
  let res := genTradesAux symbols priceMap leverage openCount pfx now 0 count rng
  (List.insertionSort entryTimeDesc res.1, res.2)

-- ═══════════════════════════════════════════════════════════════════════════
-- POSITIONS (source lines 164-191)
-- ═══════════════════════════════════════════════════════════════════════════

/-- Position view projected from one open trade by `tradesAsPositions`. -/
structure Position where
  symbol : String
  side : String
  size : ℚ
  notional : ℚ
  entry_price : ℚ
  current_price : ℚ
  liquidation_price : ℚ
  unrealized_pnl : ℚ
  unrealized_pnl_percent : ℚ
  leverage : ℚ
  margin_used : ℚ
  stop_loss : ℚ
  take_profit : ℚ
  entry_time : ℤ
  r_multiple : ℚ
  regime : String
  setup_type : String
deriving DecidableEq

/-- Body of the `.map` of `tradesAsPositions`, field for field. -/
def tradeToPosition (t : Trade) : Position :=
  ⟨t.symbol, t.side, t.quantity,
   round2 (t.quantity * t.entry_price),
   t.entry_price, t.current_price,
   (if t.side = "LONG" then round4 (t.entry_price * (1 - 0.9 / t.leverage))
    else round4 (t.entry_price * (1 + 0.9 / t.leverage))),
   t.pnl_usd, t.pnl_percent, t.leverage,
   round2 (t.quantity * t.entry_price / t.leverage),
   t.stop_loss, t.take_profit, t.entry_time, t.r_multiple, t.regime, t.setup_type⟩

/-- Source `tradesAsPositions(trades)`: filter to open trades, then map. -/
def tradesAsPositions (trades : List Trade) : List Position :=
  (trades.filter (fun t => t.status == "open")).map tradeToPosition

-- ═══════════════════════════════════════════════════════════════════════════
-- CANDLE GENERATOR (source lines 197-233)
-- ═══════════════════════════════════════════════════════════════════════════

/-- One OHLCV bar; `time` is the JavaScript `Math.floor(time / 1000)`
(epoch seconds).  The JavaScript field `open` is rendered `opn` because
`open` is a Lean keyword. -/
structure Candle where
  time : ℤ
  opn : ℚ
  high : ℚ
  low : ℚ
  close : ℚ
  volume : ℚ
deriving DecidableEq

/-- The `for` loop of `generateCandles` with `n` bars still to produce;
the source computes `time = NOW - (count - i) * intervalMs`, which equals
`now - n * intervalMs` when `n = count - i` bars remain.  `vol` and the
volume scale are fixed before the loop from `basePrice`; `trend = 0.0002`. -/
def genCandlesLoop (now intervalMs : ℤ) (vol volScale : ℚ) :
    ℕ → ℚ → Rng → List Candle × Rng
  | 0, _, rng => ([], rng)
  | n + 1, price, rng =>
    let time := now - (n + 1) * intervalMs
    let op := price
    let (r, rng) := rng.next
    let change := (r - 0.48 + 0.0002) * vol * price
    let close := round4 (op + change)
    let (hPad, rng) := rand 0.1 1.5 rng
    let high := round4 (max op close + |change| * hPad)
    let (lPad, rng) := rand 0.1 1.5 rng
    let low := round4 (min op close - |change| * lPad)
    let (v, rng) := rand 100 50000 rng
    let volume := round2 (v * volScale)
    let rest := genCandlesLoop now intervalMs vol volScale n close rng
    (⟨Int.fdiv time 1000, op, high, low, close, volume⟩ :: rest.1, rest.2)

/-- Source `generateCandles(basePrice, count, intervalMs)`. -/
def generateCandles (basePrice : ℚ) (count : ℕ) (intervalMs now : ℤ) (rng : Rng) :
    List Candle × Rng :=
  let (f, rng) := rand 0.85 0.95 rng
  let price := basePrice * f
  let vol : ℚ := if 1000 < basePrice then 0.008 else if 10 < basePrice then 0.012 else 0.02
  let volScale : ℚ := if 1000 < basePrice then 0.1 else if 10 < basePrice then 10 else 1000
  genCandlesLoop now intervalMs vol volScale count price rng

/-- The module-level `_candleCache` object, keyed by symbol. -/
def CandleCache : Type := List (String × List Candle)

/-- Source `getCandlesForSymbol(symbol)`: serve from `_candleCache` when
present (generated arrays are always truthy), otherwise generate 500
five-minute bars from `CRYPTO_PRICES[symbol] || STOCK_PRICES[symbol] || 100`
and store them. -/
def getCandlesForSymbol (symbol : String) (now : ℤ) (cache : CandleCache) (rng : Rng) :
    List Candle × CandleCache × Rng :=
  match lookupAssoc cache symbol with
  | some cs => (cs, cache, rng)
  | none =>
    let base := jsOrQ (lookupAssoc CRYPTO_PRICES symbol)
      (jsOrQ (lookupAssoc STOCK_PRICES symbol) 100)
    let res := generateCandles base 500 (5 * 60 * 1000) now rng
    (res.1, (symbol, res.1) :: cache, res.2)

-- ═══════════════════════════════════════════════════════════════════════════
-- EQUITY CURVE GENERATOR (source lines 239-248, 389-395)
-- ═══════════════════════════════════════════════════════════════════════════

/-- One point of an equity curve; `dateMs` is the instant whose date-only
ISO rendering (`isoAt(...).split('T')[0]`) the JavaScript stores. -/
structure EquityPoint where
  dateMs : ℤ
  equity : ℚ
deriving DecidableEq

/-- The `for` loop of `generateEquityCurve` with `n` days remaining; the
source date `NOW - (days - d) * DAY_MS` equals `now - n * DAY_MS` when
`n = days - d` days remain. -/
def genEquityLoop (now : ℤ) (dailyReturn volatility : ℚ) :
    ℕ → ℚ → Rng → List EquityPoint × Rng
  | 0, _, rng => ([], rng)
  | n + 1, bal, rng =>
    let (x, rng) := rand (-volatility) volatility rng
    let bal' := round2 (bal * (1 + dailyReturn + x))
    let rest := genEquityLoop now dailyReturn volatility n bal' rng
    (⟨now - (n + 1) * DAY_MS, bal'⟩ :: rest.1, rest.2)

/-- Source `generateEquityCurve(startBalance, days, dailyReturn, volatility)`. -/
def generateEquityCurve (startBalance : ℚ) (days : ℕ) (dailyReturn volatility : ℚ)
    (now : ℤ) (rng : Rng) : List EquityPoint × Rng :=
  genEquityLoop now dailyReturn volatility days startBalance rng

/-- Source `generateEquitySymbols(symbols)`: one 45-day curve per symbol,
each started at balance `0` with a fresh `rand(0.005, 0.02)` daily return
and volatility `0.015`.  The JavaScript result object is modelled as the
association list of its insertion-ordered properties. -/
def generateEquitySymbols (symbols : List String) (now : ℤ) (rng : Rng) :
    List (String × List EquityPoint) × Rng :=
  match symbols with
  | [] => ([], rng)
  | sym :: rest =>
    let dr := (rand 0.005 0.02 rng).1
    let res := generateEquityCurve 0 45 dr 0.015 now ((rand 0.005 0.02 rng).2)
    let restRes := generateEquitySymbols rest now res.2
    ((sym, res.1) :: restRes.1, restRes.2)

-- ═══════════════════════════════════════════════════════════════════════════
-- UUID HELPER (source line 29)
-- ═══════════════════════════════════════════════════════════════════════════

/-- Template of the source `uuid()` helper. -/
def UUID_TEMPLATE : List Char := "xxxxxxxx-xxxx-4xxx-yxxx-xxxxxxxxxxxx".toList

/-- Hex digit `n.toString(16)` for `n < 16`. -/
def hexChar (n : ℕ) : Char := "0123456789abcdef".toList.getD n '0'

/-- Character-by-character replacement of the uuid template: each `x`
becomes `Math.random() * 16 | 0` in hex, each `y` the same draw masked to
`r & 0x3 | 0x8`. -/
def uuidChars : List Char → Rng → List Char × Rng
  | [], rng => ([], rng)
  | c :: rest, rng =>
    if c = 'x' ∨ c = 'y' then
      let (r, rng) := rng.next
      let v := (⌊r * 16⌋).toNat
      let d := if c = 'x' then v else (v.land 3).lor 8
      let (restC, rng') := uuidChars rest rng
      (hexChar d :: restC, rng')
    else
      let (restC, rng') := uuidChars rest rng
      (c :: restC, rng')

/-- Source `uuid()`. -/
def uuid (rng : Rng) : String × Rng :=
  let (cs, rng') := uuidChars UUID_TEMPLATE rng
  (String.mk cs, rng')

-- ═══════════════════════════════════════════════════════════════════════════
-- ALERT / ERROR GENERATORS (source lines 254-313)
-- ═══════════════════════════════════════════════════════════════════════════

/-- The fixed `msgs` catalog of `generateAlerts`, as `(level, msg)` pairs. -/
def ALERT_MSGS : List (String × String) :=
  [("info", "Scheduled scan completed successfully"),
   ("info", "Position BTC LONG trailing stop updated"),
   ("info", "Heartbeat check passed — all systems nominal"),
   ("info", "Daily P&L report generated: +$312.40"),
   ("info", "New signal evaluated for ETH — confidence below threshold"),
   ("warning", "API latency elevated: 230ms (threshold: 200ms)"),
   ("warning", "Memory usage at 78% — monitoring closely"),
   ("info", "Risk guardian check passed — all positions within limits"),
   ("warning", "Drawdown approaching soft limit: 4.5% (threshold: 5.0%)"),
   ("info", "Candle cache refreshed for 7 symbols"),
   ("info", "Database connection pool healthy: 3/10 active"),
   ("info", "On-chain regime updated: Growth (score 72)"),
   ("warning", "Rate limit warning: 45/50 requests in window"),
   ("info", "Stop loss adjusted for SOL LONG — trailing +1.2R")]

/-- Alert entry pushed by `generateAlerts`; `timestampMs` is the instant
whose ISO string the JavaScript stores. -/
structure AlertEntry where
  id : String
  timestampMs : ℤ
  level : String
  message : String
  source : String
  acknowledged : Bool
deriving DecidableEq

/-- The `for` loop of `generateAlerts`, with current index `i` and `n`
iterations remaining. -/
def genAlertsLoop (now : ℤ) : ℕ → ℕ → Rng → List AlertEntry × Rng
  | _, 0, rng => ([], rng)
  | i, n + 1, rng =>
    let m := (pick ALERT_MSGS ("", "") rng).1
    let rng₁ := (pick ALERT_MSGS ("", "") rng).2
    let idStr := (uuid rng₁).1
    let rng₂ := (uuid rng₁).2
    let h := (randInt 0 24 rng₂).1
    let rng₃ := (randInt 0 24 rng₂).2
    let mnt := (randInt 0 59 rng₃).1
    let rng₄ := (randInt 0 59 rng₃).2
    let src := (pick ["crypto-bot", "hip3-bot", "monitor", "system"] "" rng₄).1
    let rng₅ := (pick ["crypto-bot", "hip3-bot", "monitor", "system"] "" rng₄).2
    let e : AlertEntry := ⟨idStr, now - (h * HOUR_MS + mnt * 60000), m.1, m.2, src, decide (5 < i)⟩
    let rest := genAlertsLoop now (i + 1) n rng₅
    (e :: rest.1, rest.2)

/-- Descending timestamp order of the alert/error feeds. -/
def alertTimeDesc (a b : AlertEntry) : Prop := b.timestampMs ≤ a.timestampMs

instance : DecidableRel alertTimeDesc := fun a b => by
  unfold alertTimeDesc; infer_instance

/-- Source `generateAlerts(count)`.  `count` arrives as a JavaScript
number (possibly negative after `Math.min`); the loop body runs
`count.toNat` times. -/
def generateAlerts (count : ℤ) (now : ℤ) (rng : Rng) : List AlertEntry × Rng :=
  let res := genAlertsLoop now 0 count.toNat rng
  (List.insertionSort alertTimeDesc res.1, res.2)

/-- The fixed `msgs` catalog of `generateErrors`, as `(msg, resolved)`. -/
def ERROR_MSGS : List (String × Bool) :=
  [("Temporary connection timeout to price feed", true),
   ("Order rejected: insufficient margin (auto-recovered)", true),
   ("WebSocket reconnection after brief disconnect", true),
   ("Rate limit hit — backed off 2s and retried", true),
   ("Stale candle data detected — refreshed cache", true),
   ("Database pool exhausted briefly — expanded pool", true),
   ("DNS resolution delay for API endpoint", true)]

/-- Error entry pushed by `generateErrors` (`stack` is always `null`). -/
structure ErrorEntry where
  id : String
  timestampMs : ℤ
  message : String
  resolved : Bool
  source : String
  stack : Option String
deriving DecidableEq

/-- The `for` loop of `generateErrors`, with `n` iterations remaining. -/
def genErrorsLoop (now : ℤ) : ℕ → Rng → List ErrorEntry × Rng
  | 0, rng => ([], rng)
  | n + 1, rng =>
    let m := (pick ERROR_MSGS ("", true) rng).1
    let rng₁ := (pick ERROR_MSGS ("", true) rng).2
    let idStr := (uuid rng₁).1
    let rng₂ := (uuid rng₁).2
    let h := (randInt 2 72 rng₂).1
    let rng₃ := (randInt 2 72 rng₂).2
    let src := (pick ["crypto-bot", "hip3-bot", "system"] "" rng₃).1
    let rng₄ := (pick ["crypto-bot", "hip3-bot", "system"] "" rng₃).2
    let e : ErrorEntry := ⟨idStr, now - h * HOUR_MS, m.1, m.2, src, none⟩
    let rest := genErrorsLoop now n rng₄
    (e :: rest.1, rest.2)

/-- Descending timestamp order of the error feed. -/
def errorTimeDesc (a b : ErrorEntry) : Prop := b.timestampMs ≤ a.timestampMs

instance : DecidableRel errorTimeDesc := fun a b => by
  unfold errorTimeDesc; infer_instance

/-- Source `generateErrors(count)`. -/
def generateErrors (count : ℤ) (now : ℤ) (rng : Rng) : List ErrorEntry × Rng :=
  let res := genErrorsLoop now count.toNat rng
  (List.insertionSort errorTimeDesc res.1, res.2)

/-- JSON rendering of an alert entry. -/
def alertToJson (a : AlertEntry) : Json :=
  .obj [("id", .str a.id), ("timestamp", .isoTime a.timestampMs),
        ("level", .str a.level), ("message", .str a.message),
        ("source", .str a.source), ("acknowledged", .bool a.acknowledged)]

/-- JSON rendering of an error entry. -/
def errorToJson (e : ErrorEntry) : Json :=
  .obj [("id", .str e.id), ("timestamp", .isoTime e.timestampMs),
        ("message", .str e.message), ("resolved", .bool e.resolved),
        ("source", .str e.source), ("stack", .null)]

-- ═══════════════════════════════════════════════════════════════════════════
-- COIN SCANNER (source lines 319-357)
-- ═══════════════════════════════════════════════════════════════════════════

/-- The fixed `coins` catalog of `generateCoinScanner`:
`(symbol, name, sector)`. -/
def COIN_CATALOG : List (String × String × String) :=
  [("RENDER", "Render", "AI/GPU"), ("FET", "Fetch.ai", "AI"),
   ("INJ", "Injective", "DeFi"), ("TIA", "Celestia", "Modular"),
   ("PYTH", "Pyth Network", "Oracle"), ("JUP", "Jupiter", "DEX"),
   ("WIF", "dogwifhat", "Meme"), ("ONDO", "Ondo Finance", "RWA"),
   ("STRK", "Starknet", "L2"), ("APT", "Aptos", "L1"),
   ("ARB", "Arbitrum", "L2"), ("OP", "Optimism", "L2"),
   ("NEAR", "NEAR Protocol", "L1"), ("AVAX", "Avalanche", "L1"),
   ("ATOM", "Cosmos", "Interop"), ("DOT", "Polkadot", "Interop"),
   ("AAVE", "Aave", "DeFi"), ("MKR", "Maker", "DeFi"),
   ("PENDLE", "Pendle", "DeFi"), ("TAO", "Bittensor", "AI")]

/-- The `coins.map` body of `generateCoinScanner`, draw for draw. -/
def genCoinScannerLoop : List (String × String × String) → Rng → List Json × Rng
  | [], rng => ([], rng)
  | (sym, name, sector) :: rest, rng =>
    let (price, rng) := rand 0.5 500 rng
    let (c24, rng) := rand (-8) 15 rng
    let (c7, rng) := rand (-15) 30 rng
    let (v24, rng) := rand 10 500 rng
    let (mcap, rng) := rand 100 5000 rng
    let (mom, rng) := randInt 20 95 rng
    let (signal, rng) := pick ["strong_buy", "buy", "neutral", "sell"] "" rng
    let (rs, rng) := rand 30 95 rng
    let (bp, rng) := rand 0 100 rng
    let j : Json := .obj
      [("symbol", .str sym), ("name", .str name), ("sector", .str sector),
       ("price", .num (round4 price)), ("change_24h", .num (round2 c24)),
       ("change_7d", .num (round2 c7)), ("volume_24h", .num (round2 (v24 * 1000000))),
       ("market_cap", .num (round2 (mcap * 1000000))), ("momentum_score", .num (mom : ℚ)),
       ("signal", .str signal), ("relative_strength", .num (round2 rs)),
       ("breakout_proximity", .num (round2 bp))]
    let (restJ, rng') := genCoinScannerLoop rest rng
    (j :: restJ, rng')

/-- Source `generateCoinScanner()`. -/
def generateCoinScanner (rng : Rng) : List Json × Rng :=
  genCoinScannerLoop COIN_CATALOG rng

-- ═══════════════════════════════════════════════════════════════════════════
-- SESSION ANALYSIS (source lines 363-383)
-- ═══════════════════════════════════════════════════════════════════════════

/-- Source `generateSessions()`; a fixed literal. -/
def generateSessions : Json :=
  .obj
    [("sessions", .arr
      [.obj [("name", .str "Asian"), ("start", .str "00:00"), ("end", .str "08:00"),
             ("trades", .num 42), ("win_rate", .num 58.3), ("avg_r", .num 0.95),
             ("total_r", .num 39.9), ("best_setup", .str "Breakout")],
       .obj [("name", .str "European"), ("start", .str "08:00"), ("end", .str "14:00"),
             ("trades", .num 68), ("win_rate", .num 64.7), ("avg_r", .num 1.35),
             ("total_r", .num 91.8), ("best_setup", .str "Continuation")],
       .obj [("name", .str "American"), ("start", .str "14:00"), ("end", .str "21:00"),
             ("trades", .num 55), ("win_rate", .num 63.6), ("avg_r", .num 1.22),
             ("total_r", .num 67.1), ("best_setup", .str "Reversal")],
       .obj [("name", .str "Late Night"), ("start", .str "21:00"), ("end", .str "00:00"),
             ("trades", .num 22), ("win_rate", .num 59.1), ("avg_r", .num 1.05),
             ("total_r", .num 23.1), ("best_setup", .str "Mean Reversion")]]),
     ("best_session", .str "European"),
     ("worst_session", .str "Late Night"),
     ("by_day", .arr
      [.obj [("day", .str "Monday"), ("trades", .num 32), ("win_rate", .num 62.5), ("avg_r", .num 1.18)],
       .obj [("day", .str "Tuesday"), ("trades", .num 29), ("win_rate", .num 65.5), ("avg_r", .num 1.42)],
       .obj [("day", .str "Wednesday"), ("trades", .num 31), ("win_rate", .num 58.1), ("avg_r", .num 0.98)],
       .obj [("day", .str "Thursday"), ("trades", .num 28), ("win_rate", .num 64.3), ("avg_r", .num 1.31)],
       .obj [("day", .str "Friday"), ("trades", .num 26), ("win_rate", .num 61.5), ("avg_r", .num 1.15)],
       .obj [("day", .str "Saturday"), ("trades", .num 22), ("win_rate", .num 63.6), ("avg_r", .num 1.25)],
       .obj [("day", .str "Sunday"), ("trades", .num 19), ("win_rate", .num 57.9), ("avg_r", .num 0.89)]])]

-- ═══════════════════════════════════════════════════════════════════════════
-- JSON RENDERINGS OF THE GENERATED RECORDS
-- ═══════════════════════════════════════════════════════════════════════════

/-- JSON rendering of a trade record, field for field in push order. -/
def tradeToJson (t : Trade) : Json :=
  .obj [("id", .str t.id), ("symbol", .str t.symbol), ("side", .str t.side),
        ("entry_price", .num t.entry_price),
        ("exit_price", match t.exit_price with | some p => .num p | none => .null),
        ("current_price", .num t.current_price),
        ("pnl_usd", .num t.pnl_usd), ("pnl_percent", .num t.pnl_percent),
        ("r_multiple", .num t.r_multiple),
        ("entry_time", .isoTime t.entry_time),
        ("exit_time", match t.exit_time with | some ts => .isoTime ts | none => .null),
        ("status", .str t.status), ("quantity", .num t.quantity),
        ("leverage", .num t.leverage), ("stop_loss", .num t.stop_loss),
        ("take_profit", .num t.take_profit), ("fee_usd", .num t.fee_usd),
        ("regime", .str t.regime), ("trinity_score", .num (t.trinity_score : ℚ)),
        ("setup_type", .str t.setup_type), ("confidence", .num t.confidence),
        ("entry_reason", .str t.entry_reason)]

/-- JSON rendering of a position view, field for field. -/
def positionToJson (p : Position) : Json :=
  .obj [("symbol", .str p.symbol), ("side", .str p.side), ("size", .num p.size),
        ("notional", .num p.notional), ("entry_price", .num p.entry_price),
        ("current_price", .num p.current_price),
        ("liquidation_price", .num p.liquidation_price),
        ("unrealized_pnl", .num p.unrealized_pnl),
        ("unrealized_pnl_percent", .num p.unrealized_pnl_percent),
        ("leverage", .num p.leverage), ("margin_used", .num p.margin_used),
        ("stop_loss", .num p.stop_loss), ("take_profit", .num p.take_profit),
        ("entry_time", .isoTime p.entry_time), ("r_multiple", .num p.r_multiple),
        ("regime", .str p.regime), ("setup_type", .str p.setup_type)]

/-- JSON rendering of a candle bar. -/
def candleToJson (c : Candle) : Json :=
  .obj [("time", .num (c.time : ℚ)), ("open", .num c.opn), ("high", .num c.high),
        ("low", .num c.low), ("close", .num c.close), ("volume", .num c.volume)]

/-- JSON rendering of an equity-curve point. -/
def equityPointToJson (p : EquityPoint) : Json :=
  .obj [("date", .isoDate p.dateMs), ("equity", .num p.equity)]

-- ═══════════════════════════════════════════════════════════════════════════
-- STATIC STATUS / STATS CONSTANTS (source lines 409-698)
-- ═══════════════════════════════════════════════════════════════════════════

/-- The `balance` field of `CRYPTO_STATUS` (also read by the WebSocket
STATUS messages). -/
def CRYPTO_STATUS_balance : ℚ := 15420.50

/-- The `current_drawdown` field of `CRYPTO_STATUS` (also read by the
WebSocket STATUS messages). -/
def CRYPTO_STATUS_current_drawdown : ℚ := 1.2

/-- Source constant `CRYPTO_STATUS`; `activePositions` is the
`CRYPTO_POSITIONS.length` captured from the module state. -/
def CRYPTO_STATUS (activePositions : ℕ) : Json :=
  .obj [("running", .bool true), ("mode", .str "live"), ("regime", .str "bullish"),
        ("onchain_regime", .str "Growth"), ("onchain_score", .num 72),
        ("onchain_enabled", .bool true), ("apiWeight", .num 23),
        ("cpu_percent", .num 12.5), ("memory_percent", .num 45.2),
        ("memory_used", .str "1.2GB"), ("memory_total", .str "4.0GB"),
        ("disk_percent", .num 35), ("uptime", .str "12d 5h 32m"),
        ("uptime_seconds", .num 1063920), ("version", .str "v2.3"),
        ("bot_version", .str "v2.3"), ("balance", .num CRYPTO_STATUS_balance),
        ("wallet_address", .str "0xDEMO...1234"), ("market_open", .bool true),
        ("strategy", .str "Adaptive Strategy"),
        ("active_positions", .num (activePositions : ℚ)), ("max_positions", .num 8),
        ("guardian_status", .str "OK"), ("soft_drawdown", .num 5.0),
        ("hard_drawdown", .num 8.0),
        ("current_drawdown", .num CRYPTO_STATUS_current_drawdown)]

/-- Source constant `HIP3_STATUS`. -/
def HIP3_STATUS (activePositions : ℕ) : Json :=
  .obj [("running", .bool true), ("mode", .str "live"), ("regime", .str "bullish"),
        ("onchain_regime", .str "Expansion"), ("onchain_score", .num 68),
        ("onchain_enabled", .bool true), ("apiWeight", .num 15),
        ("cpu_percent", .num 8.3), ("memory_percent", .num 38.5),
        ("memory_used", .str "0.8GB"), ("memory_total", .str "4.0GB"),
        ("disk_percent", .num 35), ("uptime", .str "10d 14h 18m"),
        ("uptime_seconds", .num 916680), ("version", .str "v2.3"),
        ("bot_version", .str "v2.3"), ("balance", .num 12850.30),
        ("wallet_address", .str "0xDEMO...5678"), ("market_open", .bool true),
        ("strategy", .str "Trend Following"),
        ("active_positions", .num (activePositions : ℚ)), ("max_positions", .num 4),
        ("guardian_status", .str "OK"), ("soft_drawdown", .num 5.0),
        ("hard_drawdown", .num 6.5), ("current_drawdown", .num 0.8)]

/-- Source constant `CRYPTO_STATS`. -/
def CRYPTO_STATS : Json :=
  .obj [("balance", .num 15420.50), ("initial_balance", .num 10000),
        ("total_pnl", .num 5420.50), ("total_pnl_percent", .num 54.2),
        ("win_rate", .num 62.5), ("total_trades", .num 187), ("wins", .num 117),
        ("losses", .num 70), ("profit_factor", .num 2.35), ("max_drawdown", .num 6.8),
        ("current_drawdown", .num 1.2), ("total_r", .num 234.5), ("avg_r", .num 1.25),
        ("r_per_week", .num 8.3), ("r_today", .num 2.1), ("r_week", .num 15.4),
        ("r_month", .num 42.8), ("current_streak", .num 3), ("best_streak", .num 11),
        ("worst_streak", .num (-4)), ("expectancy", .num 1.25),
        ("sharpe_ratio", .num 2.1), ("recovery_factor", .num 7.8),
        ("pnl_today", .num 312.40), ("trades_today", .num 3),
        ("total_fees", .num (-187.30)), ("avg_trade_duration", .str "6h 24m"),
        ("longest_trade", .str "2d 18h"), ("shortest_trade", .str "12m"),
        ("setup_breakdown", .obj
          [("Breakout", .obj [("trades", .num 62), ("wins", .num 42), ("losses", .num 20),
                              ("r", .num 98.5), ("win_rate", .num 67.7), ("avg_r", .num 1.59)]),
           ("Reversal", .obj [("trades", .num 55), ("wins", .num 31), ("losses", .num 24),
                              ("r", .num 72.3), ("win_rate", .num 56.4), ("avg_r", .num 1.31)]),
           ("Continuation", .obj [("trades", .num 45), ("wins", .num 30), ("losses", .num 15),
                                  ("r", .num 45.2), ("win_rate", .num 66.7), ("avg_r", .num 1.00)]),
           ("Mean Reversion", .obj [("trades", .num 25), ("wins", .num 14), ("losses", .num 11),
                                    ("r", .num 18.5), ("win_rate", .num 56.0), ("avg_r", .num 0.74)])])]

/-- Source constant `HIP3_STATS`. -/
def HIP3_STATS : Json :=
  .obj [("balance", .num 12850.30), ("initial_balance", .num 10000),
        ("total_pnl", .num 2850.30), ("total_pnl_percent", .num 28.5),
        ("win_rate", .num 59.8), ("total_trades", .num 132), ("wins", .num 79),
        ("losses", .num 53), ("profit_factor", .num 2.05), ("max_drawdown", .num 5.1),
        ("current_drawdown", .num 0.8), ("total_r", .num 168.2), ("avg_r", .num 1.27),
        ("r_per_week", .num 6.4), ("r_today", .num 1.5), ("r_week", .num 11.2),
        ("r_month", .num 31.5), ("current_streak", .num 2), ("best_streak", .num 8),
        ("worst_streak", .num (-3)), ("expectancy", .num 1.12),
        ("sharpe_ratio", .num 1.85), ("recovery_factor", .num 5.6),
        ("pnl_today", .num 187.20), ("trades_today", .num 2),
        ("total_fees", .num (-98.40)), ("avg_trade_duration", .str "8h 45m"),
        ("longest_trade", .str "3d 6h"), ("shortest_trade", .str "25m"),
        ("setup_breakdown", .obj
          [("Breakout", .obj [("trades", .num 38), ("wins", .num 24), ("losses", .num 14),
                              ("r", .num 52.1), ("win_rate", .num 63.2), ("avg_r", .num 1.37)]),
           ("Reversal", .obj [("trades", .num 35), ("wins", .num 19), ("losses", .num 16),
                              ("r", .num 38.8), ("win_rate", .num 54.3), ("avg_r", .num 1.11)]),
           ("Continuation", .obj [("trades", .num 37), ("wins", .num 24), ("losses", .num 13),
                                  ("r", .num 55.3), ("win_rate", .num 64.9), ("avg_r", .num 1.49)]),
           ("Mean Reversion", .obj [("trades", .num 22), ("wins", .num 12), ("losses", .num 10),
                                    ("r", .num 22.0), ("win_rate", .num 54.5), ("avg_r", .num 1.00)])])]

/-- Source constant `CRYPTO_CAPITAL_EVENTS` (the event timestamps are
string literals in the source, kept as strings). -/
def CRYPTO_CAPITAL_EVENTS : Json :=
  .obj [("capital_events", .obj
          [("total_deposits", .num 10000), ("total_withdrawals", .num 2000),
           ("net_cash_flow", .num 8000),
           ("events", .arr
             [.obj [("timestamp", .str "2026-01-01T10:00:00Z"), ("type", .str "deposit"),
                    ("amount", .num 10000), ("note", .str "Initial capital")],
              .obj [("timestamp", .str "2026-01-15T10:00:00Z"), ("type", .str "deposit"),
                    ("amount", .num 2000), ("note", .str "Additional capital")],
              .obj [("timestamp", .str "2026-02-01T14:00:00Z"), ("type", .str "withdrawal"),
                    ("amount", .num 2000), ("note", .str "Profit withdrawal")]])]),
        ("normalized_stats", .obj
          [("trading_pnl", .num 7420.50), ("trading_roi", .num 74.2),
           ("initial_balance", .num 10000)])]

/-- Source constant `HIP3_CAPITAL_EVENTS`. -/
def HIP3_CAPITAL_EVENTS : Json :=
  .obj [("capital_events", .obj
          [("total_deposits", .num 10000), ("total_withdrawals", .num 0),
           ("net_cash_flow", .num 10000),
           ("events", .arr
             [.obj [("timestamp", .str "2026-01-05T09:00:00Z"), ("type", .str "deposit"),
                    ("amount", .num 10000), ("note", .str "Initial capital")]])]),
        ("normalized_stats", .obj
          [("trading_pnl", .num 2850.30), ("trading_roi", .num 28.5),
           ("initial_balance", .num 10000)])]

/-- Source constant `SERVICES` (`last_request: isoAgo(30000)`). -/
def SERVICES (now : ℤ) : Json :=
  .obj [("postgres", .obj [("status", .str "connected"), ("latency", .num 2),
                           ("version", .str "15.4")]),
        ("redis", .obj [("status", .str "connected"), ("latency", .num 1),
                        ("version", .str "7.2")]),
        ("exchange", .obj [("status", .str "connected"), ("latency", .num 45),
                           ("last_request", .isoTime (now - 30000))])]

/-- The `.map((p, i) => ...)` of `ANALYTICS_COMPARISON.data`: one benchmark
row per equity point, three draws per row in `btc`, `eth`, `spy` order. -/
def analyticsCompLoop : ℕ → List EquityPoint → Rng → List Json × Rng
  | _, [], rng => ([], rng)
  | i, p :: rest, rng =>
    let (btcJ, rng) := rand (-1) 1 rng
    let (ethJ, rng) := rand (-1.5) 1.5 rng
    let (spyJ, rng) := rand (-0.5) 0.5 rng
    let row : Json := .obj
      [("date", .isoDate p.dateMs), ("trinity", .num p.equity),
       ("btc", .num (round2 (100 + ((i : ℚ) * 12.5 / 45) + btcJ))),
       ("eth", .num (round2 (100 + ((i : ℚ) * 8.3 / 45) + ethJ))),
       ("spy", .num (round2 (100 + ((i : ℚ) * 5.2 / 45) + spyJ)))]
    let (restJ, rng') := analyticsCompLoop (i + 1) rest rng
    (row :: restJ, rng')

/-- Source constant `ANALYTICS_COMPARISON`, built once at load time. -/
def ANALYTICS_COMPARISON (now : ℤ) (rng : Rng) : Json × Rng :=
  let (curve, rng) := generateEquityCurve 100 45 0.005 0.01 now rng
  let (data, rng') := analyticsCompLoop 0 curve rng
  (.obj [("btc_performance", .num 12.5), ("eth_performance", .num 8.3),
         ("spy_performance", .num 5.2), ("trinity_performance", .num 54.2),
         ("trinity_crypto", .num 54.2), ("trinity_hip3", .num 28.5),
         ("period", .str "45d"), ("data", .arr data)], rng')

/-- Source constant `MONITOR_STATUS`. -/
def MONITOR_STATUS (now : ℤ) : Json :=
  .obj [("status", .str "healthy"), ("version", .str "v1.6"), ("uptime", .str "12d 5h"),
        ("cycle_time", .num 3.2), ("last_check", .isoTime now),
        ("checks", .arr
          [.obj [("name", .str "Crypto Bot"), ("status", .str "ok"), ("latency", .num 45),
                 ("last_check", .isoTime now)],
           .obj [("name", .str "HIP-3 Bot"), ("status", .str "ok"), ("latency", .num 38),
                 ("last_check", .isoTime now)],
           .obj [("name", .str "Database"), ("status", .str "ok"), ("latency", .num 2),
                 ("last_check", .isoTime now)],
           .obj [("name", .str "Redis"), ("status", .str "ok"), ("latency", .num 1),
                 ("last_check", .isoTime now)],
           .obj [("name", .str "Monitor"), ("status", .str "ok"), ("latency", .num 0),
                 ("last_check", .isoTime now)],
           .obj [("name", .str "Funding Harvester"), ("status", .str "ok"), ("latency", .num 22),
                 ("last_check", .isoTime now)],
           .obj [("name", .str "Disk Space"), ("status", .str "ok"), ("value", .str "35%"),
                 ("last_check", .isoTime now)],
           .obj [("name", .str "Memory"), ("status", .str "ok"), ("value", .str "45%"),
                 ("last_check", .isoTime now)],
           .obj [("name", .str "Risk Guardian Crypto"), ("status", .str "ok"),
                 ("last_check", .isoTime now)],
           .obj [("name", .str "Risk Guardian HIP-3"), ("status", .str "ok"),
                 ("last_check", .isoTime now)],
           .obj [("name", .str "Watchdog"), ("status", .str "ok"),
                 ("last_check", .isoTime now)]])]

/-- Source constant `ALTSEASON_DATA`. -/
def ALTSEASON_DATA (now : ℤ) : Json :=
  .obj [("phase", .str "PHASE_3"), ("score", .num 55), ("confidence", .num 0.72),
        ("last_update", .isoTime now),
        ("indicators", .arr
          [.obj [("name", .str "Market Breadth"), ("value", .num 62), ("weight", .num 0.15),
                 ("signal", .str "bullish"),
                 ("description", .str "Percentage of alts above 200-day MA")],
           .obj [("name", .str "Volume Ratio"), ("value", .num 45), ("weight", .num 0.12),
                 ("signal", .str "neutral"),
                 ("description", .str "Alt volume relative to BTC")],
           .obj [("name", .str "Momentum Score"), ("value", .num 58), ("weight", .num 0.14),
                 ("signal", .str "bullish"),
                 ("description", .str "Aggregate momentum across top 50")],
           .obj [("name", .str "Correlation Index"), ("value", .num 71), ("weight", .num 0.10),
                 ("signal", .str "bullish"),
                 ("description", .str "Cross-asset correlation measure")],
           .obj [("name", .str "Liquidity Flow"), ("value", .num 38), ("weight", .num 0.11),
                 ("signal", .str "bearish"),
                 ("description", .str "Capital flow direction indicator")],
           .obj [("name", .str "Sentiment Gauge"), ("value", .num 55), ("weight", .num 0.08),
                 ("signal", .str "neutral"),
                 ("description", .str "Aggregated social sentiment")],
           .obj [("name", .str "Cycle Position"), ("value", .num 67), ("weight", .num 0.10),
                 ("signal", .str "bullish"),
                 ("description", .str "Market cycle phase estimator")],
           .obj [("name", .str "Risk Appetite"), ("value", .num 52), ("weight", .num 0.10),
                 ("signal", .str "neutral"),
                 ("description", .str "Risk-on vs risk-off measure")],
           .obj [("name", .str "Macro Alignment"), ("value", .num 60), ("weight", .num 0.10),
                 ("signal", .str "bullish"),
                 ("description", .str "Global macro conditions alignment")]]),
        ("btc_dominance", .num 52.3), ("btc_trend", .str "bullish"),
        ("btc_price", .num 97250), ("eth_btc", .num 0.0352),
        ("phase_history", .arr
          [.obj [("date", .str "2025-03-01"), ("phase", .str "PHASE_1"), ("score", .num 15)],
           .obj [("date", .str "2025-06-01"), ("phase", .str "PHASE_1"), ("score", .num 22)],
           .obj [("date", .str "2025-09-01"), ("phase", .str "PHASE_2"), ("score", .num 35)],
           .obj [("date", .str "2025-11-01"), ("phase", .str "PHASE_2"), ("score", .num 42)],
           .obj [("date", .str "2025-12-01"), ("phase", .str "PHASE_3"), ("score", .num 48)],
           .obj [("date", .str "2026-01-01"), ("phase", .str "PHASE_3"), ("score", .num 52)],
           .obj [("date", .str "2026-02-01"), ("phase", .str "PHASE_3"), ("score", .num 55)]]),
        ("phase_descriptions", .obj
          [("PHASE_1", .str "Defensive positioning. Low risk appetite."),
           ("PHASE_2", .str "Major assets leading. Selective opportunities."),
           ("PHASE_3", .str "Early rotation signals detected."),
           ("PHASE_4", .str "Rotation accelerating. Broader participation."),
           ("PHASE_5", .str "Wide participation across sectors."),
           ("PHASE_6", .str "Extended conditions. Caution advised.")])]

/-- Source constant `FUNDING_STATUS`
(`next_funding: isoAt(Math.ceil(NOW / HOUR_MS) * HOUR_MS + 120000)`,
`last_scan: isoAgo(58 * 60000)`). -/
def FUNDING_STATUS (now : ℤ) : Json :=
  .obj [("running", .bool true), ("mode", .str "monitoring"), ("asset", .str "ETH"),
        ("current_rate", .num 0.0145), ("annualized_rate", .num 12.7),
        ("next_funding", .isoTime (⌈(now : ℚ) / (HOUR_MS : ℚ)⌉ * HOUR_MS + 120000)),
        ("position_active", .bool false), ("session", .str "market_hours"),
        ("reserve_ratio", .num 0.60), ("min_rate_threshold", .num 0.0013),
        ("profitability_gate", .str "active"),
        ("last_scan", .isoTime (now - 58 * 60000))]

/-- The `Array.from({ length: 15 }, (_, i) => ...)` history rows of
`FUNDING_STATS`, for indices `i, i+1, …, 14`, five draws per row. -/
def fundingHistoryLoop (now : ℤ) : ℕ → Rng → List Json × Rng
  | i, rng =>
    if _h : i < 15 then
      let (rate, rng) := rand 0.005 0.035 rng
      let (dur, rng) := rand 4 24 rng
      let (fc, rng) := rand 1 8 rng
      let (fp, rng) := rand 0.5 2 rng
      let (net, rng) := rand 0.5 6 rng
      let row : Json := .obj
        [("timestamp", .isoTime (now - ((15 : ℤ) - (i : ℤ)) * 3 * DAY_MS)),
         ("rate", .num (round4 rate)), ("duration_hours", .num (round2 dur)),
         ("funding_collected", .num (round2 fc)), ("fees_paid", .num (round2 fp)),
         ("net", .num (round2 net))]
      let (rest, rng') := fundingHistoryLoop now (i + 1) rng
      (row :: rest, rng')
    else ([], rng)
  termination_by i _ => 15 - i

/-- Source constant `FUNDING_STATS`, built once at load time. -/
def FUNDING_STATS (now : ℤ) (rng : Rng) : Json × Rng :=
  let (history, rng') := fundingHistoryLoop now 0 rng
  (.obj [("total_collected", .num 45.30), ("total_fees", .num 12.50),
         ("net_profit", .num 32.80), ("total_rounds", .num 15),
         ("avg_rate", .num 0.0132), ("best_rate", .num 0.0312),
         ("worst_rate", .num 0.0058), ("total_hours_active", .num 127),
         ("avg_duration_hours", .num 8.5), ("roi_annualized", .num 11.2),
         ("history", .arr history)], rng')

/-- Source constant `LOG_MESSAGES` for the WebSocket simulation, as
`(level, msg)` pairs. -/
def LOG_MESSAGES : List (String × String) :=
  [("INFO", "Scanning market conditions..."),
   ("INFO", "Analyzing BTC setup — evaluating confluence factors"),
   ("INFO", "Risk check passed for all active positions"),
   ("INFO", "Position monitoring active — 3 open positions"),
   ("INFO", "Signal evaluated for ETH: no entry — insufficient confidence (0.52)"),
   ("INFO", "Heartbeat OK — all systems nominal"),
   ("INFO", "Trailing stop updated for SOL LONG: +1.8R"),
   ("INFO", "Candle data refreshed — 7 symbols updated"),
   ("INFO", "Guardian check: drawdown 1.2% — within limits"),
   ("DEBUG", "On-chain regime check: Growth (score 72, next refresh 2h)"),
   ("INFO", "Order filled: BTC LONG entry at $97,245.00"),
   ("INFO", "Stop loss placed: BTC LONG SL at $96,280.00"),
   ("INFO", "Take profit placed: BTC LONG TP at $99,150.00"),
   ("INFO", "Scan complete — duration: 3.1s"),
   ("INFO", "Price feed latency: 42ms — nominal"),
   ("DEBUG", "Redis cache hit ratio: 94.2%"),
   ("INFO", "Signal evaluated for DOGE: no entry — regime filter"),
   ("INFO", "Balance check: $15,420.50 — margin available: $12,180.30"),
   ("INFO", "SUI breakout detected — confidence 0.78, evaluating..."),
   ("INFO", "SUI entry skipped — max positions reached (3/3 open)"),
   ("DEBUG", "API weight: 23/1200 — well within limits"),
   ("INFO", "Position SOL LONG P&L: +$142.30 (+2.1R)"),
   ("INFO", "Database vacuum completed — 0 dead tuples"),
   ("INFO", "Funding rate check: ETH at 0.0145% — monitoring")]

-- ═══════════════════════════════════════════════════════════════════════════
-- BOT-CONTEXT CLASSIFIERS (source lines 739-753)
-- ═══════════════════════════════════════════════════════════════════════════

/-- Source `isCrypto(url)`. -/
def isCrypto (url : String) : Bool :=
  jsIncludes url ":9100" || jsIncludes url "/crypto/" ||
    (!jsIncludes url ":9300" && !jsIncludes url ":9200" &&
     !jsIncludes url ":9400" && !jsIncludes url "/hip3/")

/-- Source `isHip3(url)`. -/
def isHip3 (url : String) : Bool := jsIncludes url ":9300" || jsIncludes url "/hip3/"

/-- Source `isMonitor(url)`. -/
def isMonitor (url : String) : Bool := jsIncludes url ":9200" || jsIncludes url "/monitor/"

/-- Source `isFunding(url)`. -/
def isFunding (url : String) : Bool := jsIncludes url ":9400" || jsIncludes url "/funding/"

-- ═══════════════════════════════════════════════════════════════════════════
-- MODULE INITIALISATION (load-time state of the IIFE)
-- ═══════════════════════════════════════════════════════════════════════════

/-- Module-level values computed once when the script loads, in source
order: the two trade ledgers, the positions projected from them, and the
two load-time randomized constants. -/
structure InitState where
  now : ℤ
  cryptoTrades : List Trade
  hip3Trades : List Trade
  cryptoPositions : List Position
  hip3Positions : List Position
  analyticsComparison : Json
  fundingStats : Json

/-- Load-time initialisation:
`CRYPTO_TRADES = generateTrades(CRYPTO_SYMBOLS, CRYPTO_PRICES, 15, 55, 'C')`,
`HIP3_TRADES = generateTrades(STOCK_SYMBOLS, STOCK_PRICES, 3, 40, 'H')`,
the projected positions, then `ANALYTICS_COMPARISON` and `FUNDING_STATS`
(the only other module-level consumers of `Math.random()`), draws in
source order. -/
def initState (now : ℤ) (rng : Rng) : InitState × Rng :=
  let (cryptoTrades, rng) := generateTrades CRYPTO_SYMBOLS cryptoPriceOf 15 55 "C" now rng
  let (hip3Trades, rng) := generateTrades STOCK_SYMBOLS stockPriceOf 3 40 "H" now rng
  let cryptoPositions := tradesAsPositions cryptoTrades
  let hip3Positions := tradesAsPositions hip3Trades
  let (ac, rng) := ANALYTICS_COMPARISON now rng
  let (fs, rng') := FUNDING_STATS now rng
  (⟨now, cryptoTrades, hip3Trades, cryptoPositions, hip3Positions, ac, fs⟩, rng')

-- ═══════════════════════════════════════════════════════════════════════════
-- ROUTE HANDLERS (source lines 760-986)
-- ═══════════════════════════════════════════════════════════════════════════

/-- Handler of the `/api/stats` and `/api/stats/accurate` route: the
per-context stats object, with `balance` and `pnl_today` jittered when
the URL contains `accurate`. -/
def statsHandler (url : String) (rng : Rng) : Json × Rng :=
  let base := if isHip3 url then HIP3_STATS else CRYPTO_STATS
  if jsIncludes url "accurate" then
    let (j1, rng) := rand (-5) 5 rng
    let base := base.modifyNum "balance" (fun b => round2 (b + j1))
    let (j2, rng') := rand (-2) 2 rng
    (base.modifyNum "pnl_today" (fun b => round2 (b + j2)), rng')
  else (base, rng)

/-- Handler of the `/api/candles/:symbol` route: the symbol is the last
`/`-separated part of the URL with any query stripped, upper-cased. -/
def candlesHandler (now : ℤ) (url : String) (cache : CandleCache) (rng : Rng) :
    Json × CandleCache × Rng :=
  let parts := url.splitOn "/"
  let symbol := (((parts.getLastD "").splitOn "?").headD "").toUpper
  let (cs, cache', rng') := getCandlesForSymbol symbol now cache rng
  (.arr (cs.map candleToJson), cache', rng')

/-- Handler of the `/api/dashboard/settings` route: a bare `{success: true}`
acknowledgement on POST, the settings object otherwise. -/
def dashboardSettingsHandler (options : Option String) : Json :=
  match options with
  | some "POST" => .obj [("success", .bool true)]
  | _ =>
    .obj [("success", .bool true),
          ("settings", .obj
            [("theme", .str "matrix"), ("language", .str "en"),
             ("refresh_interval", .num 30), ("notifications_enabled", .bool true),
             ("sound_enabled", .bool false)])]

/-- Handler of the `/api/monitor/alerts` route:
`limit = parseInt(searchParams.get('limit') || '20')`, capped at 20.
A `none` from `jsParseInt` models `NaN`, for which `Math.min(NaN, 20)` is
`NaN` and the generation loop body never runs. -/
def monitorAlertsHandler (now : ℤ) (url : String) (rng : Rng) : Json × Rng :=
  match jsParseInt (jsOrString (searchParamsGet url "limit") "20") with
  | some l =>
    let res := generateAlerts (min l 20) now rng
    (.obj [("alerts", .arr (res.1.map alertToJson))], res.2)
  | none => (.obj [("alerts", .arr [])], rng)

/-- Handler of the `/api/monitor/errors` route:
`limit = parseInt(searchParams.get('limit') || '30')`, capped at 7. -/
def monitorErrorsHandler (now : ℤ) (url : String) (rng : Rng) : Json × Rng :=
  match jsParseInt (jsOrString (searchParamsGet url "limit") "30") with
  | some l =>
    let res := generateErrors (min l 7) now rng
    (.obj [("errors", .arr (res.1.map errorToJson))], res.2)
  | none => (.obj [("errors", .arr [])], rng)

/-- Fixed payload of the drift route. -/
def DRIFT_PAYLOAD (now : ℤ) : Json :=
  .obj [("drift_detected", .bool false), ("positions", .arr []),
        ("last_check", .isoTime now), ("threshold", .num 0.05)]

/-- Fixed payload of the kill-switch route. -/
def KILL_SWITCH_PAYLOAD : Json :=
  .obj [("active", .bool false), ("activated_at", .null), ("reason", .null)]

/-- Handler of the `/api/prices` route: every stock price jittered by
`rand(-2, 2)`, in `Object.entries` order. -/
def pricesJitterLoop : List (String × ℚ) → Rng → List (String × Json) × Rng
  | [], rng => ([], rng)
  | (k, v) :: rest, rng =>
    let (j, rng) := rand (-2) 2 rng
    let (restJ, rng') := pricesJitterLoop rest rng
    ((k, Json.num (round2 (v + j))) :: restJ, rng')

/-- Fixed payload of the `/api/regime` route. -/
def REGIME_PAYLOAD (now : ℤ) : Json :=
  .obj [("regime", .str "Growth"), ("score", .num 72), ("confidence", .num 0.81),
        ("last_update", .isoTime now), ("next_update", .isoTime (now + 6 * HOUR_MS)),
        ("metrics", .obj
          [("Net Capital Flow", .obj [("value", .num 62), ("signal", .str "bullish")]),
           ("Active Addresses", .obj [("value", .num 58), ("signal", .str "bullish")]),
           ("Transaction Volume", .obj [("value", .num 71), ("signal", .str "bullish")]),
           ("DEX Activity", .obj [("value", .num 45), ("signal", .str "neutral")]),
           ("Gas Usage", .obj [("value", .num 55), ("signal", .str "neutral")])]),
        ("effects", .obj
          [("tp_multiplier", .num 1.15), ("confidence_bonus", .num 0.05),
           ("max_positions_modifier", .num 0)])]

/-- One entry of `MOCK_ROUTES`: a predicate (the source field `match`, a Lean keyword, rendered `rmatch`) over
`(pathname, url)` and a handler over `(url, options)`; handlers
additionally thread the candle cache and the random stream. -/
structure Route where
  rmatch : String → String → Bool
  handler : String → Option String → CandleCache → Rng → Json × CandleCache × Rng

/-- The `MOCK_ROUTES` table, entry for entry in source order (first match
wins).  `st` is the load-time module state the handlers close over;
`options` is the `method` property of the request options. -/
def MOCK_ROUTES (st : InitState) : List Route :=
  [ -- STATUS
   ⟨fun p _ => p == "/status",
    fun url _ cache rng =>
      ((if isHip3 url then HIP3_STATUS st.hip3Positions.length
        else CRYPTO_STATUS st.cryptoPositions.length), cache, rng)⟩,
   -- STATS
   ⟨fun p _ => p == "/api/stats" || p == "/api/stats/accurate",
    fun url _ cache rng => let (j, rng') := statsHandler url rng; (j, cache, rng')⟩,
   -- TRADES
   ⟨fun p _ => p == "/api/trades",
    fun url _ cache rng =>
      (.arr ((if isHip3 url then st.hip3Trades else st.cryptoTrades).map tradeToJson),
       cache, rng)⟩,
   -- POSITIONS
   ⟨fun p _ => p == "/api/positions",
    fun url _ cache rng =>
      (.arr ((if isHip3 url then st.hip3Positions else st.cryptoPositions).map positionToJson),
       cache, rng)⟩,
   -- CAPITAL EVENTS
   ⟨fun p _ => p == "/api/capital-events",
    fun url _ cache rng =>
      ((if isHip3 url then HIP3_CAPITAL_EVENTS else CRYPTO_CAPITAL_EVENTS), cache, rng)⟩,
   -- CANDLES
   ⟨fun p _ => jsStartsWith p "/api/candles/",
    fun url _ cache rng => candlesHandler st.now url cache rng⟩,
   -- DASHBOARD SETTINGS
   ⟨fun p _ => p == "/api/dashboard/settings",
    fun _ options cache rng => (dashboardSettingsHandler options, cache, rng)⟩,
   -- SERVICES
   ⟨fun p _ => p == "/api/services",
    fun _ _ cache rng => (SERVICES st.now, cache, rng)⟩,
   -- LAST SCAN
   ⟨fun p _ => p == "/api/last_scan",
    fun _ _ cache rng =>
      (.obj [("timestamp", .isoTime (st.now - 30000)), ("duration", .num 3.2),
             ("symbols_scanned", .num 7), ("signals_found", .num 1),
             ("status", .str "ok")], cache, rng)⟩,
   -- LATENCY
   ⟨fun p _ => p == "/api/latency",
    fun _ _ cache rng =>
      let (l, rng') := randInt 35 65 rng
      (.obj [("latency", .num (l : ℚ))], cache, rng')⟩,
   -- ANALYTICS COMPARISON
   ⟨fun p _ => p == "/api/analytics/comparison",
    fun _ _ cache rng => (st.analyticsComparison, cache, rng)⟩,
   -- EQUITY SYMBOLS
   ⟨fun p _ => p == "/api/analytics/equity-symbols",
    fun url _ cache rng =>
      let symbols := if isHip3 url then STOCK_SYMBOLS else CRYPTO_SYMBOLS
      let (res, rng') := generateEquitySymbols symbols st.now rng
      (.obj (res.map (fun pr => (pr.1, Json.arr (pr.2.map equityPointToJson)))), cache, rng')⟩,
   -- SESSIONS
   ⟨fun p _ => p == "/api/analytics/sessions",
    fun _ _ cache rng => (generateSessions, cache, rng)⟩,
   -- PRICES
   ⟨fun p _ => p == "/api/prices",
    fun _ _ cache rng =>
      let (entries, rng') := pricesJitterLoop STOCK_PRICES rng
      (.obj [("prices", .obj entries), ("last_update", .isoTime st.now)], cache, rng')⟩,
   -- MONITOR STATUS
   ⟨fun p _ => p == "/api/monitor/status",
    fun _ _ cache rng => (MONITOR_STATUS st.now, cache, rng)⟩,
   -- MONITOR ALERTS
   ⟨fun p _ => jsStartsWith p "/api/monitor/alerts",
    fun url _ cache rng => let (j, rng') := monitorAlertsHandler st.now url rng; (j, cache, rng')⟩,
   -- MONITOR ERRORS
   ⟨fun p _ => jsStartsWith p "/api/monitor/errors",
    fun url _ cache rng => let (j, rng') := monitorErrorsHandler st.now url rng; (j, cache, rng')⟩,
   -- DRIFT
   ⟨fun p _ => jsIncludes p "/drift",
    fun _ _ cache rng => (DRIFT_PAYLOAD st.now, cache, rng)⟩,
   -- KILL SWITCH (GET)
   ⟨fun p _ => jsIncludes p "/kill-switch" || jsIncludes p "/kill_switch",
    fun _ _ cache rng => (KILL_SWITCH_PAYLOAD, cache, rng)⟩,
   -- ALTSEASON
   ⟨fun p _ => p == "/api/monitor/altseason" || p == "/api/altseason",
    fun _ _ cache rng => (ALTSEASON_DATA st.now, cache, rng)⟩,
   -- COIN SCANNER
   ⟨fun p _ => p == "/api/monitor/coin-scanner" || p == "/api/coin-scanner",
    fun _ _ cache rng =>
      let (coins, rng') := generateCoinScanner rng
      (.obj [("coins", .arr coins), ("last_update", .isoTime st.now),
             ("total_scanned", .num 200), ("btc_dominance", .num 52.3)], cache, rng')⟩,
   -- FUNDING STATUS
   ⟨fun p _ => p == "/api/funding/status",
    fun _ _ cache rng => (FUNDING_STATUS st.now, cache, rng)⟩,
   -- FUNDING STATS
   ⟨fun p _ => p == "/api/funding/stats",
    fun _ _ cache rng => (st.fundingStats, cache, rng)⟩,
   -- FUNDING POSITION
   ⟨fun p _ => p == "/api/funding/position",
    fun _ _ cache rng => (.null, cache, rng)⟩,
   -- ON-CHAIN REGIME
   ⟨fun p _ => p == "/api/regime" || p == "/api/onchain/regime",
    fun _ _ cache rng => (REGIME_PAYLOAD st.now, cache, rng)⟩]

-- ═══════════════════════════════════════════════════════════════════════════
-- FETCH INTERCEPTOR (source lines 1028-1098)
-- ═══════════════════════════════════════════════════════════════════════════

/-- Outcome of one intercepted `window.fetch` call: either delegation to
the original fetch (`passthrough`), or a synthesized `Response` with a
status, JSON body, presence of the `X-Demo-Mode` header, and whether the
`DEMO MODE` toast was shown. -/
inductive FetchResult where
  | passthrough
  | response (status : ℕ) (body : Json) (demoHeader : Bool) (toast : Bool)

/-- First matching entry of the route table (`for (const route of
MOCK_ROUTES) if (route.match(pathname, url)) ...`). -/
def findRoute (routes : List Route) (pathname url : String) : Option Route :=
  match routes with
  | [] => none
  | r :: rest => if r.rmatch pathname url then some r else findRoute rest pathname url

/-- The external allow-list test of the interceptor, first `if`:
Binance/CoinGecko/CoinMarketCap pass through. -/
def allowlistApis (url : String) : Bool :=
  jsIncludes url "binance.com" || jsIncludes url "coingecko.com" ||
  jsIncludes url "coinmarketcap.com"

/-- The external allow-list test of the interceptor, second `if`:
CDN/font/asset hosts pass through. -/
def allowlistAssets (url : String) : Bool :=
  jsIncludes url "cdn." || jsIncludes url "fonts." ||
  jsIncludes url "googleapis.com" || jsIncludes url "jsdelivr.net"

/-- The mutating-method test `method === 'POST' || 'PUT' || 'DELETE'`. -/
def mutatingMethod (m : String) : Bool := m == "POST" || m == "PUT" || m == "DELETE"

/-- The patched `window.fetch` resolver, parametrized by the route table
it scans (the installed interceptor uses `MOCK_ROUTES st`, see
`windowFetch`).  `url` is the request URL string, `pathname` the
`new URL(url, window.location.origin).pathname` the source computes from
it (with `url.split('?')[0]` as the catch fallback), and `options` the
`method` property of the fetch options (`none` when absent, in which case
the method defaults to GET).  On a route match the handler runs first and
the artificial 20-80 ms delay then consumes one further draw. -/
def fetchDispatch (routes : List Route) (url pathname : String) (options : Option String)
    (cache : CandleCache) (rng : Rng) : FetchResult × CandleCache × Rng :=
  if allowlistApis url then (.passthrough, cache, rng)
  else if allowlistAssets url then (.passthrough, cache, rng)
  else
    let method := options.getD "GET"
    if mutatingMethod method then
      if pathname == "/api/dashboard/settings" then
        (.response 200 (.obj [("success", .bool true)]) false false, cache, rng)
      else
        (.response 200 (.obj [("success", .bool true), ("demo", .bool true)]) false true,
         cache, rng)
    else
      match findRoute routes pathname url with
      | some route =>
        let (body, cache', rng₁) := route.handler url options cache rng
        let (_, rng₂) := randInt 20 80 rng₁
        (.response 200 body true false, cache', rng₂)
      | none =>
        if jsStartsWith pathname "/api/" || pathname == "/status" then
          (.response 200 (.obj [("success", .bool true), ("data", .null), ("demo", .bool true)])
             false false, cache, rng)
        else (.passthrough, cache, rng)

/-- The interceptor actually installed on `window.fetch`. -/
def windowFetch (st : InitState) (url pathname : String) (options : Option String)
    (cache : CandleCache) (rng : Rng) : FetchResult × CandleCache × Rng :=
  fetchDispatch (MOCK_ROUTES st) url pathname options cache rng

-- ═══════════════════════════════════════════════════════════════════════════
-- WEBSOCKET INTERCEPTOR (source lines 1106-1231)
-- ═══════════════════════════════════════════════════════════════════════════

/-- Mutable state of one `MockWebSocket` instance:
`readyState` (0 CONNECTING / 1 OPEN / 3 CLOSED), whether the 300 ms
open-timeout scheduled by the constructor is still pending, whether the
recurring `setInterval` of `_startPeriodicMessages` is installed and not
yet cleared, and the `msgIndex` counter of the interval callback. -/
structure WSState where
  readyState : ℕ
  openPending : Bool
  intervalActive : Bool
  msgIndex : ℕ
deriving DecidableEq

/-- State of a freshly constructed `MockWebSocket` (the constructor sets
`readyState = 0` and schedules the open timeout). -/
def wsInit : WSState := ⟨0, true, false, 0⟩

/-- Events the host event loop can deliver to one `MockWebSocket`:
the constructor's 300 ms open-timeout firing, one tick of the recurring
interval, and the client calling `close()`.  Each carries the wall-clock
instant `t` at which it runs (the `new Date().toISOString()` the callbacks
embed in their payloads). -/
inductive WSEvent where
  | openTimer (t : ℤ)
  | tick (t : ℤ)
  | close (t : ℤ)
deriving DecidableEq

/-- `this._sendMock(data)`: delivers the message event unless
`readyState !== 1`.  Returns the list of delivered message payloads. -/
def wsSendMock (s : WSState) (data : Json) : List Json :=
  if s.readyState = 1 then [data] else []

/-- One step of a `MockWebSocket`'s behaviour under an event-loop event.
Returns the new state, the JSON payloads delivered as `message` events by
the step, and the advanced random stream.  `positionsCount` is the
`CRYPTO_POSITIONS.length` the STATUS payload reads.

* `openTimer`: fires only while pending (a `setTimeout` runs once); the
  callback sets `readyState = 1`, sends the initial connection LOG via
  `_sendMock`, and `_startPeriodicMessages` installs the interval, drawing
  its random 5-10 s period.  The source never clears this timeout, so a
  `close()` issued during the CONNECTING window does not prevent it.
* `tick`: fires only while the interval is installed; the callback
  returns immediately when `readyState !== 1`, otherwise emits the cycled
  LOG message, with chance 0.125 a TRADE message and with chance 0.083 a
  STATUS message, in source draw order.
* `close`: `clearInterval`, `readyState = 3`; delivers no message event
  (only a `close` event). -/
def wsStep (positionsCount : ℕ) (s : WSState) (ev : WSEvent) (rng : Rng) :
    WSState × List Json × Rng :=
  match ev with
  | .openTimer t =>
    if s.openPending then
      let s₁ : WSState := ⟨1, false, s.intervalActive, s.msgIndex⟩
      let connectMsg : Json := .obj
        [("type", .str "LOG"), ("timestamp", .isoTime t), ("level", .str "INFO"),
         ("message", .str "WebSocket connected — live feed active")]
      let out := wsSendMock s₁ connectMsg
      let (_, rng') := randInt 5000 10000 rng
      (⟨s₁.readyState, s₁.openPending, true, s₁.msgIndex⟩, out, rng')
    else (s, [], rng)
  | .tick t =>
    if s.intervalActive then
      if s.readyState ≠ 1 then (s, [], rng)
      else
        let logMsg := LOG_MESSAGES.getD (s.msgIndex % LOG_MESSAGES.length) ("", "")
        let out₁ := wsSendMock s (.obj
          [("type", .str "LOG"), ("timestamp", .isoTime t),
           ("level", .str logMsg.1), ("message", .str logMsg.2)])
        let (r₁, rng) := rng.next
        let (out₂, rng) :=
          if r₁ < 0.125 then
            let (sym, rng) := pick CRYPTO_SYMBOLS "" rng
            let (side, rng) := pick SIDES "" rng
            let (action, rng) := pick ["entry", "exit", "sl_update", "tp_update"] "" rng
            (wsSendMock s (.obj
              [("type", .str "TRADE"), ("timestamp", .isoTime t), ("symbol", .str sym),
               ("side", .str side), ("action", .str action),
               ("price", .num ((lookupAssoc CRYPTO_PRICES sym).getD 0)),
               ("message", .str (sym ++ " " ++ side ++ " — position updated"))]), rng)
          else ([], rng)
        let (r₂, rng) := rng.next
        let (out₃, rng) :=
          if r₂ < 0.083 then
            let (balJ, rng) := rand (-10) 10 rng
            let (ddJ, rng) := rand (-0.1) 0.1 rng
            (wsSendMock s (.obj
              [("type", .str "STATUS"), ("timestamp", .isoTime t),
               ("positions", .num (positionsCount : ℚ)),
               ("balance", .num (round2 (CRYPTO_STATUS_balance + balJ))),
               ("drawdown", .num (round2 (CRYPTO_STATUS_current_drawdown + ddJ)))]), rng)
          else ([], rng)
        (⟨s.readyState, s.openPending, s.intervalActive, s.msgIndex + 1⟩,
         out₁ ++ out₂ ++ out₃, rng)
    else (s, [], rng)
  | .close _ =>
    (⟨3, s.openPending, false, s.msgIndex⟩, [], rng)

/-- Run a `MockWebSocket` through a list of event-loop events, collecting
the message payloads delivered by each event. -/
def wsRun (positionsCount : ℕ) (s : WSState) (evs : List WSEvent) (rng : Rng) :
    WSState × List (List Json) × Rng :=
  match evs with
  | [] => (s, [], rng)
  | ev :: rest =>
    let (s₁, out, rng₁) := wsStep positionsCount s ev rng
    let (s₂, outs, rng₂) := wsRun positionsCount s₁ rest rng₁
    (s₂, out :: outs, rng₂)

-- ═══════════════════════════════════════════════════════════════════════════
-- ROUNDING LEMMAS
-- ═══════════════════════════════════════════════════════════════════════════

theorem round4_le_add (x : ℚ) : round4 x ≤ x + 1/20000 := by
  unfold round4 jsRound
  have h := Int.floor_le (x * 10000 + 1/2)
  rw [div_le_iff₀ (by norm_num : (0:ℚ) < 10000)]
  linarith

theorem sub_lt_round4 (x : ℚ) : x - 1/20000 < round4 x := by
  unfold round4 jsRound
  have h := Int.lt_floor_add_one (x * 10000 + 1/2)
  rw [lt_div_iff₀ (by norm_num : (0:ℚ) < 10000)]
  linarith

theorem round4_mono {x y : ℚ} (h : x ≤ y) : round4 x ≤ round4 y := by
  unfold round4 jsRound
  have : (⌊x * 10000 + 1/2⌋ : ℤ) ≤ ⌊y * 10000 + 1/2⌋ := by
    apply Int.floor_le_floor; nlinarith
  exact div_le_div_of_nonneg_right (by exact_mod_cast this) (by norm_num)

/-- A rational is a 4-decimal value (an integer number of `1/10000`). -/
def Is4Dec (q : ℚ) : Prop := ∃ k : ℤ, q = (k : ℚ) / 10000

theorem is4Dec_round4 (x : ℚ) : Is4Dec (round4 x) := ⟨jsRound (x * 10000), rfl⟩

theorem round4_eq_self {x : ℚ} (h : Is4Dec x) : round4 x = x := by
  obtain ⟨k, rfl⟩ := h
  unfold round4 jsRound
  have : (k : ℚ) / 10000 * 10000 + 1/2 = 1/2 + (k : ℚ) := by ring
  rw [this, Int.floor_add_int]
  norm_num

theorem is4Dec_max {x y : ℚ} (hx : Is4Dec x) (hy : Is4Dec y) : Is4Dec (max x y) := by
  obtain ⟨k, rfl⟩ := hx
  obtain ⟨m, rfl⟩ := hy
  refine ⟨max k m, ?_⟩
  rcases le_total k m with h | h
  · rw [max_eq_right h, max_eq_right]
    exact by apply div_le_div_of_nonneg_right ?_ ?_ <;> first | exact_mod_cast h | norm_num
  · rw [max_eq_left h, max_eq_left]
    exact by apply div_le_div_of_nonneg_right ?_ ?_ <;> first | exact_mod_cast h | norm_num

theorem is4Dec_min {x y : ℚ} (hx : Is4Dec x) (hy : Is4Dec y) : Is4Dec (min x y) := by
  obtain ⟨k, rfl⟩ := hx
  obtain ⟨m, rfl⟩ := hy
  refine ⟨min k m, ?_⟩
  rcases le_total k m with h | h
  · rw [min_eq_left h, min_eq_left]
    exact by apply div_le_div_of_nonneg_right ?_ ?_ <;> first | exact_mod_cast h | norm_num
  · rw [min_eq_right h, min_eq_right]
    exact by apply div_le_div_of_nonneg_right ?_ ?_ <;> first | exact_mod_cast h | norm_num

theorem round2_zero : round2 0 = 0 := by
  unfold round2 jsRound
  norm_num

-- ═══════════════════════════════════════════════════════════════════════════
-- C1: OPEN-TRADE COUNT AND POSITION IN THE SORTED LEDGER
-- ═══════════════════════════════════════════════════════════════════════════

theorem genTrade_status (symbols : List String) (priceMap : String → ℚ) (leverage : ℚ)
    (oc : ℕ) (pfx : String) (now : ℤ) (i : ℕ) (rng : Rng) :
    (genTrade symbols priceMap leverage oc pfx now i rng).1.status
      = if i < oc then "open" else "closed" := by
  by_cases h : i < oc <;>
    simp [genTrade, rand, randInt, pick, Rng.next, h]

theorem genTradesAux_countP_open (symbols : List String) (priceMap : String → ℚ)
    (leverage : ℚ) (oc : ℕ) (pfx : String) (now : ℤ) :
    ∀ (n i : ℕ) (rng : Rng),
      ((genTradesAux symbols priceMap leverage oc pfx now i n rng).1.countP
          (fun t => t.status == "open"))
        = min (i + n) oc - min i oc := by
  intro n
  induction n with
  | zero => intro i rng; simp [genTradesAux]
  | succ n ih =>
    intro i rng
    simp only [genTradesAux, List.countP_cons]
    rw [ih]
    rw [genTrade_status symbols priceMap leverage oc pfx now i rng]
    by_cases h : i < oc <;> simp [h] <;> omega

/-- C1 (amended): every generation run of the trade ledger with
`count` at least the per-class open count produces exactly the fixed
per-class number of records with status `open` (3 when the id prefix is
`"C"`, the crypto class; 2 otherwise) — the counting half of the claim.
The claim's further assertion that the open records occupy the first K
positions of the sorted list fails, see
`generateTrades_sorted_open_counterexample`: entry times are drawn
independently of the open/closed status, so a closed trade can sort
above every open one. -/
theorem generateTrades_openCount (symbols : List String) (priceMap : String → ℚ)
    (leverage : ℚ) (count : ℕ) (pfx : String) (now : ℤ) (rng : Rng)
    (h : (if pfx = "C" then 3 else 2) ≤ count) :
    ((generateTrades symbols priceMap leverage count pfx now rng).1.countP
        (fun t => t.status == "open")) = if pfx = "C" then 3 else 2 := by
  unfold generateTrades
  simp only
  rw [(List.perm_insertionSort entryTimeDesc _).countP_eq]
  rw [genTradesAux_countP_open]
  by_cases hp : pfx = "C" <;> simp [hp] at h ⊢ <;> omega

/-- Witness for C1 at a concrete run: 5 crypto-class trades, of which
exactly 3 are open. -/
theorem generateTrades_openCount_witness :
    (if "C" = "C" then 3 else 2) ≤ 5 ∧
    ((generateTrades CRYPTO_SYMBOLS cryptoPriceOf 15 5 "C" 0 ⟨fun _ => 0, 0⟩).1.countP
        (fun t => t.status == "open")) = if "C" = "C" then 3 else 2 :=
  ⟨by norm_num,
   generateTrades_openCount CRYPTO_SYMBOLS cryptoPriceOf 15 5 "C" 0 ⟨fun _ => 0, 0⟩
     (by norm_num)⟩

/-- Draw stream for the C1 counterexample: the day-offset draws of the two
open trades (draw indices 5 and 18) return `44/45`, pushing their entry
times 45 days back; every other draw returns `0`, so the closed third
trade enters only 1 day back.  All draws lie in `[0, 1)`. -/
def c1Rng : Rng := ⟨fun n => if n = 5 ∨ n = 18 then 44/45 else 0, 0⟩

unseal Rat.mul Rat.add Rat.inv Rat.sub Rat.ofScientific in
/-- Counterexample to C1 as stated: a hip3-class run (`K = 2`) with
3 trades in which, after the final sort by entry time descending, the
first position is held by a closed trade — the open records do not occupy
the first K positions. -/
theorem generateTrades_sorted_open_counterexample :
    ((generateTrades ["AAPL"] (fun _ => 245.30) 3 3 "H" 0 c1Rng).1.map Trade.status)
      = ["closed", "open", "open"] := by decide

-- ═══════════════════════════════════════════════════════════════════════════
-- C3: POSITION VIEW PROJECTION
-- ═══════════════════════════════════════════════════════════════════════════

/-- C3 (amended): for every open trade record with positive entry price
and leverage at least 1, the projected position view satisfies
`notional = round2(quantity × entry_price)` and
`margin_used = round2(quantity × entry_price / leverage)` (the claim's
"exact" products hold only up to the source's cent rounding, see
`tradesAsPositions_exact_counterexample`), and whenever
`0.9 × entry_price / leverage` exceeds the 4-decimal rounding half-step
`1/20000` — true in particular for both generated ledgers, which use
leverage 15 and 3 on entry prices above 0.28 — the liquidation price is
strictly below the entry price for the LONG side and strictly above it
for the other (SHORT) side. -/
theorem tradesAsPositions_projection (trades : List Trade) (t : Trade)
    (ht : t ∈ trades) (hopen : t.status = "open")
    (_hentry : 0 < t.entry_price) (_hlev : 1 ≤ t.leverage) :
    tradeToPosition t ∈ tradesAsPositions trades
    ∧ (tradeToPosition t).notional = round2 (t.quantity * t.entry_price)
    ∧ (tradeToPosition t).margin_used = round2 (t.quantity * t.entry_price / t.leverage)
    ∧ (1/20000 < 0.9 * t.entry_price / t.leverage →
        (t.side = "LONG" → (tradeToPosition t).liquidation_price < t.entry_price)
        ∧ (t.side ≠ "LONG" → t.entry_price < (tradeToPosition t).liquidation_price)) := by
  refine ⟨?_, rfl, rfl, ?_⟩
  · unfold tradesAsPositions
    exact List.mem_map_of_mem _ (List.mem_filter.mpr ⟨ht, by simp [hopen]⟩)
  · intro hd
    constructor
    · intro hside
      show (if t.side = "LONG" then round4 (t.entry_price * (1 - 0.9 / t.leverage))
            else round4 (t.entry_price * (1 + 0.9 / t.leverage))) < t.entry_price
      have hx : t.entry_price * (1 - 0.9 / t.leverage)
          = t.entry_price - 0.9 * t.entry_price / t.leverage := by ring
      rw [if_pos hside, hx]
      have h1 := round4_le_add (t.entry_price - 0.9 * t.entry_price / t.leverage)
      linarith
    · intro hside
      show t.entry_price <
        (if t.side = "LONG" then round4 (t.entry_price * (1 - 0.9 / t.leverage))
         else round4 (t.entry_price * (1 + 0.9 / t.leverage)))
      have hx : t.entry_price * (1 + 0.9 / t.leverage)
          = t.entry_price + 0.9 * t.entry_price / t.leverage := by ring
      rw [if_neg hside, hx]
      have h1 := sub_lt_round4 (t.entry_price + 0.9 * t.entry_price / t.leverage)
      linarith

/-- Concrete open trade whose projection instantiates C3's theorem. -/
def c3WitnessTrade : Trade :=
  ⟨"C-0001", "BTC", "LONG", 100, none, 101, 0, 0, 0, 0, none, "open",
   2, 10, 99, 103, 1, "Growth", 80, "Breakout", 0.7, "demo"⟩

/-- Witness for C3 at `c3WitnessTrade` (entry 100, leverage 10,
quantity 2, LONG). -/
theorem tradesAsPositions_projection_witness :
    c3WitnessTrade ∈ [c3WitnessTrade] ∧ c3WitnessTrade.status = "open"
    ∧ (0 : ℚ) < c3WitnessTrade.entry_price ∧ (1 : ℚ) ≤ c3WitnessTrade.leverage
    ∧ (1/20000 : ℚ) < 0.9 * c3WitnessTrade.entry_price / c3WitnessTrade.leverage
    ∧ (tradeToPosition c3WitnessTrade ∈ tradesAsPositions [c3WitnessTrade]
       ∧ (tradeToPosition c3WitnessTrade).notional
           = round2 (c3WitnessTrade.quantity * c3WitnessTrade.entry_price)
       ∧ (tradeToPosition c3WitnessTrade).margin_used
           = round2 (c3WitnessTrade.quantity * c3WitnessTrade.entry_price / c3WitnessTrade.leverage)
       ∧ (1/20000 < 0.9 * c3WitnessTrade.entry_price / c3WitnessTrade.leverage →
           (c3WitnessTrade.side = "LONG" →
             (tradeToPosition c3WitnessTrade).liquidation_price < c3WitnessTrade.entry_price)
           ∧ (c3WitnessTrade.side ≠ "LONG" →
             c3WitnessTrade.entry_price < (tradeToPosition c3WitnessTrade).liquidation_price))) :=
  ⟨List.mem_singleton.mpr rfl, rfl, by norm_num [c3WitnessTrade], by norm_num [c3WitnessTrade],
   by norm_num [c3WitnessTrade],
   tradesAsPositions_projection [c3WitnessTrade] c3WitnessTrade
     (List.mem_singleton.mpr rfl) rfl (by norm_num [c3WitnessTrade])
     (by norm_num [c3WitnessTrade])⟩

/-- Concrete open trade refuting C3 as stated: entry price 1, quantity
0.0157, leverage 100000. -/
def c3CounterTrade : Trade :=
  ⟨"C-0002", "BTC", "LONG", 1, none, 1, 0, 0, 0, 0, none, "open",
   157/10000, 100000, 0, 0, 0, "Growth", 80, "Breakout", 0.7, "demo"⟩

unseal Rat.mul Rat.add Rat.inv Rat.sub Rat.ofScientific in
/-- Counterexample to C3 as stated: for the open trade `c3CounterTrade`
(side LONG, entry price 1, leverage 100000 ≥ 1, quantity 0.0157) the
projected notional is 0.02 while quantity × entry price is 0.0157 (not
exact), the projected margin is 0 while notional / leverage is 0.0000002
(not exact), and the liquidation price equals the entry price 1 (not
strictly below it). -/
theorem tradesAsPositions_exact_counterexample :
    ((tradesAsPositions [c3CounterTrade]).map Position.notional = [2/100])
    ∧ c3CounterTrade.quantity * c3CounterTrade.entry_price = 157/10000
    ∧ ((2 : ℚ)/100 ≠ 157/10000)
    ∧ ((tradesAsPositions [c3CounterTrade]).map Position.margin_used = [0])
    ∧ ((0 : ℚ) ≠ (2/100) / c3CounterTrade.leverage)
    ∧ ((tradesAsPositions [c3CounterTrade]).map Position.liquidation_price = [1])
    ∧ c3CounterTrade.side = "LONG" ∧ c3CounterTrade.status = "open"
    ∧ c3CounterTrade.entry_price = 1 ∧ (1 : ℚ) ≤ c3CounterTrade.leverage
    ∧ ¬((1 : ℚ) < 1) := by decide

-- ═══════════════════════════════════════════════════════════════════════════
-- C4: CANDLE HIGH/LOW INVARIANT
-- ═══════════════════════════════════════════════════════════════════════════

theorem rand_nonneg {a b : ℚ} (ha : 0 ≤ a) (hba : a ≤ b) {rng : Rng} (h : rng.Valid) :
    0 ≤ (rand a b rng).1 := by
  unfold rand Rng.next
  have h0 := (h rng.pos).1
  simp only
  nlinarith

/-- Bounds of one candle bar built from open price `price`, price change
`change` and nonnegative high/low pad factors: the high/low always cover
the close and cover `max`/`min` of open and close up to the 4-decimal
rounding half-step; when the open price is itself a 4-decimal value they
cover them exactly. -/
theorem candle_bar_bounds (price change hp lp : ℚ) (hhp : 0 ≤ hp) (hlp : 0 ≤ lp) :
    (max price (round4 (price + change)) - 1/20000
        ≤ round4 (max price (round4 (price + change)) + |change| * hp)
      ∧ round4 (min price (round4 (price + change)) - |change| * lp)
        ≤ min price (round4 (price + change)) + 1/20000
      ∧ round4 (price + change) ≤ round4 (max price (round4 (price + change)) + |change| * hp)
      ∧ round4 (min price (round4 (price + change)) - |change| * lp) ≤ round4 (price + change))
    ∧ (Is4Dec price →
        max price (round4 (price + change))
          ≤ round4 (max price (round4 (price + change)) + |change| * hp)
        ∧ round4 (min price (round4 (price + change)) - |change| * lp)
          ≤ min price (round4 (price + change))) := by
  set close := round4 (price + change) with hclose
  have habs : (0 : ℚ) ≤ |change| := abs_nonneg change
  have hpad : (0 : ℚ) ≤ |change| * hp := mul_nonneg habs hhp
  have hpad' : (0 : ℚ) ≤ |change| * lp := mul_nonneg habs hlp
  have hcl : Is4Dec close := hclose ▸ is4Dec_round4 _
  have h1 : round4 (max price close) ≤ round4 (max price close + |change| * hp) :=
    round4_mono (by linarith)
  have h2 : round4 (min price close - |change| * lp) ≤ round4 (min price close) :=
    round4_mono (by linarith)
  have h3 : close ≤ max price close := le_max_right _ _
  have h4 : min price close ≤ close := min_le_right _ _
  constructor
  · refine ⟨?_, ?_, ?_, ?_⟩
    · have h5 := sub_lt_round4 (max price close)
      linarith
    · have h5 := round4_le_add (min price close)
      linarith
    · have h5 : round4 close ≤ round4 (max price close + |change| * hp) :=
        round4_mono (by linarith)
      rw [round4_eq_self hcl] at h5
      exact h5
    · have h5 : round4 (min price close - |change| * lp) ≤ round4 close :=
        round4_mono (by linarith)
      rw [round4_eq_self hcl] at h5
      exact h5
  · intro hp4
    have hmax4 : Is4Dec (max price close) := is4Dec_max hp4 hcl
    have hmin4 : Is4Dec (min price close) := is4Dec_min hp4 hcl
    exact ⟨le_trans (round4_eq_self hmax4).ge h1,
           le_trans h2 (round4_eq_self hmin4).le⟩

theorem genCandlesLoop_invariant (now intervalMs : ℤ) (vol volScale : ℚ) :
    ∀ (n : ℕ) (price : ℚ) (rng : Rng), rng.Valid →
      (∀ b ∈ (genCandlesLoop now intervalMs vol volScale n price rng).1,
          max b.opn b.close - 1/20000 ≤ b.high ∧ b.low ≤ min b.opn b.close + 1/20000
          ∧ b.close ≤ b.high ∧ b.low ≤ b.close)
      ∧ (Is4Dec price →
          ∀ b ∈ (genCandlesLoop now intervalMs vol volScale n price rng).1,
            max b.opn b.close ≤ b.high ∧ b.low ≤ min b.opn b.close)
      ∧ (∀ b ∈ ((genCandlesLoop now intervalMs vol volScale n price rng).1).drop 1,
          max b.opn b.close ≤ b.high ∧ b.low ≤ min b.opn b.close) := by
  intro n
  induction n with
  | zero => intro price rng _; simp [genCandlesLoop]
  | succ n ih =>
    intro price rng hv
    simp only [genCandlesLoop, rand, Rng.next]
    set r := rng.stream rng.pos with hr
    set hp := rng.stream (rng.pos + 1) * (1.5 - 0.1) + 0.1 with hhp
    set lp := rng.stream (rng.pos + 1 + 1) * (1.5 - 0.1) + 0.1 with hlp
    have hv2 := hv (rng.pos + 1)
    have hv3 := hv (rng.pos + 1 + 1)
    have hhp0 : (0 : ℚ) ≤ hp := by rw [hhp]; nlinarith [hv2.1]
    have hlp0 : (0 : ℚ) ≤ lp := by rw [hlp]; nlinarith [hv3.1]
    set change := (r - 0.48 + 0.0002) * vol * price with hchange
    have hbar := candle_bar_bounds price change hp lp hhp0 hlp0
    have hrec := ih (round4 (price + change)) ⟨rng.stream, rng.pos + 1 + 1 + 1 + 1⟩ hv
    refine ⟨?_, ?_, ?_⟩
    · intro b hb
      rcases List.mem_cons.mp hb with hb | hb
      · subst hb
        exact hbar.1
      · exact hrec.1 b hb
    · intro hp4 b hb
      rcases List.mem_cons.mp hb with hb | hb
      · subst hb
        exact hbar.2 hp4
      · exact hrec.2.1 (is4Dec_round4 _) b hb
    · intro b hb
      simp only [List.drop_one, List.tail_cons] at hb
      exact hrec.2.1 (is4Dec_round4 _) b hb

/-- C4 (amended): in every generated candle series the high of each bar
covers the close, the low covers the close, and both cover
`max(open, close)` / `min(open, close)` to within the 4-decimal rounding
half-step `1/20000`; for every bar after the first (whose open price is
the already-rounded close of its predecessor) the claim's exact
invariant `high ≥ max(open, close)` and `low ≤ min(open, close)` holds.
For the very first bar the exact invariant can fail, because its open
price `basePrice * rand(0.85, 0.95)` is not 4-decimal-rounded while its
high and low are — see `generateCandles_invariant_counterexample`. -/
theorem generateCandles_hl_invariant (basePrice : ℚ) (count : ℕ) (intervalMs now : ℤ)
    (rng : Rng) (hv : rng.Valid) :
    (∀ b ∈ (generateCandles basePrice count intervalMs now rng).1,
        max b.opn b.close - 1/20000 ≤ b.high ∧ b.low ≤ min b.opn b.close + 1/20000
        ∧ b.close ≤ b.high ∧ b.low ≤ b.close)
    ∧ (∀ b ∈ ((generateCandles basePrice count intervalMs now rng).1).drop 1,
        max b.opn b.close ≤ b.high ∧ b.low ≤ min b.opn b.close) := by
  unfold generateCandles
  simp only [rand, Rng.next]
  have h := genCandlesLoop_invariant now intervalMs
    (if 1000 < basePrice then 0.008 else if 10 < basePrice then 0.012 else 0.02)
    (if 1000 < basePrice then 0.1 else if 10 < basePrice then 10 else 1000)
    count (basePrice * (rng.stream rng.pos * (0.95 - 0.85) + 0.85))
    ⟨rng.stream, rng.pos + 1⟩ hv
  exact ⟨h.1, h.2.2⟩

/-- Witness for C4: the all-zeros draw stream is valid, and the amended
invariant holds of the 2-bar series it generates from base price 3. -/
theorem generateCandles_hl_invariant_witness :
    (⟨fun _ => 0, 0⟩ : Rng).Valid
    ∧ ((∀ b ∈ (generateCandles 3 2 300000 0 ⟨fun _ => 0, 0⟩).1,
          max b.opn b.close - 1/20000 ≤ b.high ∧ b.low ≤ min b.opn b.close + 1/20000
          ∧ b.close ≤ b.high ∧ b.low ≤ b.close)
       ∧ (∀ b ∈ ((generateCandles 3 2 300000 0 ⟨fun _ => 0, 0⟩).1).drop 1,
          max b.opn b.close ≤ b.high ∧ b.low ≤ min b.opn b.close)) :=
  ⟨fun _ => ⟨le_refl 0, by norm_num⟩,
   generateCandles_hl_invariant 3 2 300000 0 ⟨fun _ => 0, 0⟩
     (fun _ => ⟨le_refl 0, by norm_num⟩)⟩

/-- Draw stream for the C4 counterexample: the start-price draw returns
`1/7` (an open price of `3 * (0.85 + 1/70)` whose 4-decimal rounding is
strictly larger), the first change draw returns `0.4798` (making the
price change exactly zero), every other draw returns `0`.  All draws lie
in `[0, 1)`. -/
def c4Rng : Rng := ⟨fun n => if n = 0 then 1/7 else if n = 1 then 4798/10000 else 0, 0⟩

unseal Rat.mul Rat.add Rat.inv Rat.sub Rat.ofScientific in
/-- Counterexample to C4 as stated: in the 1-bar series generated from
base price 3 under `c4Rng`, the first bar has
`open = 2.592857142857…`, `close = low = 2.5929` and zero change, so
`low > min(open, close)` — the claimed invariant
`low ≤ min(open, close)` fails on the first bar. -/
theorem generateCandles_invariant_counterexample :
    ((generateCandles 3 1 300000 0 c4Rng).1.map
        (fun b => decide (b.low ≤ min b.opn b.close))) = [false] := by decide

-- ═══════════════════════════════════════════════════════════════════════════
-- C5: CANDLE-SERIES MEMOIZATION
-- ═══════════════════════════════════════════════════════════════════════════

theorem genCandlesLoop_length (now intervalMs : ℤ) (vol volScale : ℚ) :
    ∀ (n : ℕ) (price : ℚ) (rng : Rng),
      (genCandlesLoop now intervalMs vol volScale n price rng).1.length = n := by
  intro n
  induction n with
  | zero => intro price rng; simp [genCandlesLoop]
  | succ n ih => intro price rng; simp [genCandlesLoop, ih]

theorem generateCandles_length (basePrice : ℚ) (count : ℕ) (intervalMs now : ℤ) (rng : Rng) :
    (generateCandles basePrice count intervalMs now rng).1.length = count := by
  unfold generateCandles
  simp only [rand, Rng.next]
  rw [genCandlesLoop_length]

theorem getCandlesForSymbol_uncached (sym : String) (now : ℤ) (cache : CandleCache)
    (rng : Rng) (h : lookupAssoc cache sym = none) :
    getCandlesForSymbol sym now cache rng
      = ((generateCandles (jsOrQ (lookupAssoc CRYPTO_PRICES sym)
            (jsOrQ (lookupAssoc STOCK_PRICES sym) 100)) 500 (5 * 60 * 1000) now rng).1,
         (sym, (generateCandles (jsOrQ (lookupAssoc CRYPTO_PRICES sym)
            (jsOrQ (lookupAssoc STOCK_PRICES sym) 100)) 500 (5 * 60 * 1000) now rng).1) :: cache,
         (generateCandles (jsOrQ (lookupAssoc CRYPTO_PRICES sym)
            (jsOrQ (lookupAssoc STOCK_PRICES sym) 100)) 500 (5 * 60 * 1000) now rng).2) := by
  unfold getCandlesForSymbol
  rw [h]

theorem getCandlesForSymbol_cached (sym : String) (now : ℤ) (cs : List Candle)
    (cache : CandleCache) (rng : Rng) (hc : lookupAssoc cache sym = some cs) :
    getCandlesForSymbol sym now cache rng = (cs, cache, rng) := by
  unfold getCandlesForSymbol
  rw [hc]

theorem lookupAssoc_cons_self {α : Type} (k : String) (v : α) (rest : List (String × α)) :
    lookupAssoc ((k, v) :: rest) k = some v := by
  simp [lookupAssoc]

set_option maxRecDepth 4000 in
/-- C5: two successive calls of `getCandlesForSymbol` for the same
symbol, starting from a cache that does not yet hold the symbol, return
the identical bar sequence of the fixed length 500 — the first call
generates and caches the series, the second returns the cached object
and leaves the cache unchanged. -/
theorem getCandlesForSymbol_memo (sym : String) (now : ℤ) (cache : CandleCache) (rng : Rng)
    (h : lookupAssoc cache sym = none) :
    (getCandlesForSymbol sym now
        (getCandlesForSymbol sym now cache rng).2.1
        (getCandlesForSymbol sym now cache rng).2.2).1
      = (getCandlesForSymbol sym now cache rng).1
    ∧ (getCandlesForSymbol sym now
        (getCandlesForSymbol sym now cache rng).2.1
        (getCandlesForSymbol sym now cache rng).2.2).2.1
      = (getCandlesForSymbol sym now cache rng).2.1
    ∧ (getCandlesForSymbol sym now cache rng).1.length = 500 := by
  rw [getCandlesForSymbol_uncached sym now cache rng h,
      getCandlesForSymbol_cached sym now _ _ _ (lookupAssoc_cons_self sym _ _)]
  exact ⟨rfl, rfl, generateCandles_length _ _ _ _ _⟩

/-- Witness for C5: the empty initial cache (`_candleCache = {}`) does
not hold `"BTC"`, and the two successive fetches for it coincide. -/
theorem getCandlesForSymbol_memo_witness :
    lookupAssoc ([] : CandleCache) "BTC" = none
    ∧ ((getCandlesForSymbol "BTC" 0
          (getCandlesForSymbol "BTC" 0 [] ⟨fun _ => 0, 0⟩).2.1
          (getCandlesForSymbol "BTC" 0 [] ⟨fun _ => 0, 0⟩).2.2).1
        = (getCandlesForSymbol "BTC" 0 [] ⟨fun _ => 0, 0⟩).1
       ∧ (getCandlesForSymbol "BTC" 0
          (getCandlesForSymbol "BTC" 0 [] ⟨fun _ => 0, 0⟩).2.1
          (getCandlesForSymbol "BTC" 0 [] ⟨fun _ => 0, 0⟩).2.2).2.1
        = (getCandlesForSymbol "BTC" 0 [] ⟨fun _ => 0, 0⟩).2.1
       ∧ (getCandlesForSymbol "BTC" 0 [] ⟨fun _ => 0, 0⟩).1.length = 500) :=
  ⟨rfl, getCandlesForSymbol_memo "BTC" 0 [] ⟨fun _ => 0, 0⟩ rfl⟩

-- ═══════════════════════════════════════════════════════════════════════════
-- C10: EQUITY-BY-SYMBOL CURVES ARE IDENTICALLY ZERO
-- ═══════════════════════════════════════════════════════════════════════════

theorem genEquityLoop_zero (now : ℤ) (dr vol : ℚ) :
    ∀ (n : ℕ) (rng : Rng),
      (∀ p ∈ (genEquityLoop now dr vol n 0 rng).1, p.equity = 0)
      ∧ (genEquityLoop now dr vol n 0 rng).1.length = n := by
  intro n
  induction n with
  | zero => intro rng; simp [genEquityLoop]
  | succ n ih =>
    intro rng
    simp only [genEquityLoop, rand, Rng.next, zero_mul, round2_zero]
    constructor
    · intro p hp
      rcases List.mem_cons.mp hp with hp | hp
      · subst hp; rfl
      · exact (ih _).1 p hp
    · simp [(ih _).2]

/-- C10: in the equity-by-symbol analytics response, the curve attached
to every symbol has 45 points and every point has equity exactly 0: each
curve is generated from starting balance 0 and every step only rescales
the running balance (`bal = round2(bal * (…))`), so it stays 0 for all
symbols and all random draws. -/
theorem generateEquitySymbols_zero (symbols : List String) (now : ℤ) :
    ∀ (rng : Rng) (sym : String) (curve : List EquityPoint),
      (sym, curve) ∈ (generateEquitySymbols symbols now rng).1 →
      curve.length = 45 ∧ ∀ p ∈ curve, p.equity = 0 := by
  induction symbols with
  | nil =>
    intro rng sym curve h
    simp [generateEquitySymbols] at h
  | cons s rest ih =>
    intro rng sym curve h
    simp only [generateEquitySymbols] at h
    rcases List.mem_cons.mp h with h | h
    · have h2 : curve = (generateEquityCurve 0 45 ((rand 0.005 0.02 rng).1) 0.015 now
          ((rand 0.005 0.02 rng).2)).1 := congrArg Prod.snd h
      subst h2
      exact ⟨(genEquityLoop_zero now _ 0.015 45 _).2,
             (genEquityLoop_zero now _ 0.015 45 _).1⟩
    · exact ih _ sym curve h

/-- Witness for C10: the curve the response attaches to `"BTC"` has
45 points, all with equity 0. -/
theorem generateEquitySymbols_zero_witness :
    (("BTC", ((generateEquitySymbols ["BTC"] 0 ⟨fun _ => 0, 0⟩).1.headD ("", [])).2)
        ∈ (generateEquitySymbols ["BTC"] 0 ⟨fun _ => 0, 0⟩).1)
    ∧ (((generateEquitySymbols ["BTC"] 0 ⟨fun _ => 0, 0⟩).1.headD ("", [])).2.length = 45
       ∧ ∀ p ∈ ((generateEquitySymbols ["BTC"] 0 ⟨fun _ => 0, 0⟩).1.headD ("", [])).2,
           p.equity = 0) :=
  ⟨List.mem_cons_self _ _,
   generateEquitySymbols_zero ["BTC"] 0 ⟨fun _ => 0, 0⟩ "BTC" _ (List.mem_cons_self _ _)⟩

-- ═══════════════════════════════════════════════════════════════════════════
-- C6: MONITOR ALERT/ERROR FEED LIMIT CAPS
-- ═══════════════════════════════════════════════════════════════════════════

theorem genAlertsLoop_length (now : ℤ) :
    ∀ (n i : ℕ) (rng : Rng), (genAlertsLoop now i n rng).1.length = n := by
  intro n
  induction n with
  | zero => intro i rng; simp [genAlertsLoop]
  | succ n ih => intro i rng; simp [genAlertsLoop, ih]

theorem genErrorsLoop_length (now : ℤ) :
    ∀ (n : ℕ) (rng : Rng), (genErrorsLoop now n rng).1.length = n := by
  intro n
  induction n with
  | zero => intro rng; simp [genErrorsLoop]
  | succ n ih => intro rng; simp [genErrorsLoop, ih]

theorem generateAlerts_length (count now : ℤ) (rng : Rng) :
    (generateAlerts count now rng).1.length = count.toNat := by
  unfold generateAlerts
  rw [List.length_insertionSort, genAlertsLoop_length]

theorem generateErrors_length (count now : ℤ) (rng : Rng) :
    (generateErrors count now rng).1.length = count.toNat := by
  unfold generateErrors
  rw [List.length_insertionSort, genErrorsLoop_length]

/-- C6: for every monitor alerts/errors request whose `limit` query
parameter parses to the natural number `n`, the alerts response carries
exactly `min n 20` entries and the errors response exactly `min n 7` —
the generator-specific ceilings 20 and 7 cap any larger request, and a
requested count of zero yields an empty feed. -/
theorem monitor_limit_cap (now : ℤ) (url : String) (rng₁ rng₂ : Rng) (n : ℕ)
    (h20 : jsParseInt (jsOrString (searchParamsGet url "limit") "20") = some (n : ℤ))
    (h30 : jsParseInt (jsOrString (searchParamsGet url "limit") "30") = some (n : ℤ)) :
    ((monitorAlertsHandler now url rng₁).1.getField "alerts").bind Json.arrLen
      = some (min n 20)
    ∧ ((monitorErrorsHandler now url rng₂).1.getField "errors").bind Json.arrLen
      = some (min n 7) := by
  constructor
  · unfold monitorAlertsHandler
    rw [h20]
    simp only [Json.getField, Json.arrLen, lookupAssoc, if_pos, Option.bind,
      List.length_map, generateAlerts_length]
    have hmin : (min (n : ℤ) 20).toNat = min n 20 := by omega
    rw [hmin]
  · unfold monitorErrorsHandler
    rw [h30]
    simp only [Json.getField, Json.arrLen, lookupAssoc, if_pos, Option.bind,
      List.length_map, generateErrors_length]
    have hmin : (min (n : ℤ) 7).toNat = min n 7 := by omega
    rw [hmin]

/-- Witness for C6 at a concrete request: `?limit=50` yields exactly 20
alerts (the ceiling, not 50) and exactly 7 errors. -/
theorem monitor_limit_cap_witness :
    jsParseInt (jsOrString
        (searchParamsGet "http://localhost:9200/api/monitor/alerts?limit=50" "limit") "20")
      = some ((50 : ℕ) : ℤ)
    ∧ jsParseInt (jsOrString
        (searchParamsGet "http://localhost:9200/api/monitor/alerts?limit=50" "limit") "30")
      = some ((50 : ℕ) : ℤ)
    ∧ (((monitorAlertsHandler 0 "http://localhost:9200/api/monitor/alerts?limit=50"
          ⟨fun _ => 0, 0⟩).1.getField "alerts").bind Json.arrLen = some (min 50 20)
       ∧ ((monitorErrorsHandler 0 "http://localhost:9200/api/monitor/alerts?limit=50"
          ⟨fun _ => 0, 0⟩).1.getField "errors").bind Json.arrLen = some (min 50 7)) :=
  ⟨by decide, by decide,
   monitor_limit_cap 0 "http://localhost:9200/api/monitor/alerts?limit=50"
     ⟨fun _ => 0, 0⟩ ⟨fun _ => 0, 0⟩ 50 (by decide) (by decide)⟩

-- ═══════════════════════════════════════════════════════════════════════════
-- C2: MUTATING-METHOD DISPATCH
-- ═══════════════════════════════════════════════════════════════════════════

/-- C2: every intercepted fetch whose method is POST, PUT or DELETE and
whose path is not `/api/dashboard/settings` resolves to a status-200
payload `{success: true, demo: true}` carrying the simulated-action
marker and showing the demo toast, without consulting the route table
(the result is the same for every route table `routes`, and the cache
and random stream are untouched); a mutating request to
`/api/dashboard/settings` resolves to the bare `{success: true}` payload,
which carries no `demo` marker and shows no toast. -/
theorem fetchDispatch_mutating (routes : List Route) (url pathname m : String)
    (cache : CandleCache) (rng : Rng)
    (hallow1 : allowlistApis url = false) (hallow2 : allowlistAssets url = false)
    (hm : m = "POST" ∨ m = "PUT" ∨ m = "DELETE") :
    (pathname ≠ "/api/dashboard/settings" →
      fetchDispatch routes url pathname (some m) cache rng
        = (.response 200 (.obj [("success", .bool true), ("demo", .bool true)]) false true,
           cache, rng)
      ∧ (Json.obj [("success", .bool true), ("demo", .bool true)]).getField "demo"
          = some (.bool true))
    ∧ (pathname = "/api/dashboard/settings" →
      fetchDispatch routes url pathname (some m) cache rng
        = (.response 200 (.obj [("success", .bool true)]) false false, cache, rng)
      ∧ (Json.obj [("success", .bool true)]).getField "demo" = none) := by
  have hmm : mutatingMethod m = true := by
    rcases hm with h | h | h <;> simp [mutatingMethod, h]
  constructor
  · intro hp
    refine ⟨?_, rfl⟩
    unfold fetchDispatch
    simp [hallow1, hallow2, hmm, hp]
  · intro hp
    refine ⟨?_, rfl⟩
    unfold fetchDispatch
    simp [hallow1, hallow2, hmm, hp]

/-- Witness for C2: a POST to `/api/bot/start` resolves to the simulated
acknowledgement for every route table, here the empty one. -/
theorem fetchDispatch_mutating_witness :
    allowlistApis "/api/bot/start" = false
    ∧ allowlistAssets "/api/bot/start" = false
    ∧ ("POST" = "POST" ∨ "POST" = "PUT" ∨ "POST" = "DELETE")
    ∧ (("/api/bot/start" : String) ≠ "/api/dashboard/settings" →
        fetchDispatch [] "/api/bot/start" "/api/bot/start" (some "POST") [] ⟨fun _ => 0, 0⟩
          = (.response 200 (.obj [("success", .bool true), ("demo", .bool true)]) false true,
             [], ⟨fun _ => 0, 0⟩)
        ∧ (Json.obj [("success", .bool true), ("demo", .bool true)]).getField "demo"
            = some (.bool true)) :=
  ⟨by decide, by decide, Or.inl rfl,
   (fetchDispatch_mutating [] "/api/bot/start" "/api/bot/start" "POST" [] ⟨fun _ => 0, 0⟩
     (by decide) (by decide) (Or.inl rfl)).1⟩

-- ═══════════════════════════════════════════════════════════════════════════
-- C7: UNMATCHED API-SHAPED PATHS FALL BACK TO EMPTY SUCCESS
-- ═══════════════════════════════════════════════════════════════════════════

theorem findRoute_none (routes : List Route) (pathname url : String)
    (h : ∀ r ∈ routes, r.rmatch pathname url = false) :
    findRoute routes pathname url = none := by
  induction routes with
  | nil => rfl
  | cons r rest ih =>
    simp only [findRoute]
    rw [h r (List.mem_cons_self r rest)]
    simp only [Bool.false_eq_true, if_false]
    exact ih (fun r' hr' => h r' (List.mem_cons_of_mem r hr'))

/-- A concrete module state: the load-time initialisation run at instant
0 with the all-zeros draw stream. -/
def demoInitState : InitState := (initState 0 ⟨fun _ => 0, 0⟩).1

/-- C7 (amended): every intercepted request with a non-mutating method
(the claim fails for POST/PUT/DELETE, see
`fetchDispatch_fallback_counterexample`) whose path starts with `/api/`
or equals `/status` but matches no route of the table resolves to the
status-200 payload `{success: true, data: null, demo: true}` with null
data — never an error response. -/
theorem fetchDispatch_unmatched_fallback (st : InitState) (url pathname : String)
    (options : Option String) (cache : CandleCache) (rng : Rng)
    (hallow1 : allowlistApis url = false) (hallow2 : allowlistAssets url = false)
    (hm : mutatingMethod (options.getD "GET") = false)
    (hnomatch : ∀ r ∈ MOCK_ROUTES st, r.rmatch pathname url = false)
    (hapi : jsStartsWith pathname "/api/" = true ∨ pathname = "/status") :
    fetchDispatch (MOCK_ROUTES st) url pathname options cache rng
      = (.response 200
           (.obj [("success", .bool true), ("data", .null), ("demo", .bool true)])
           false false, cache, rng)
    ∧ (Json.obj [("success", .bool true), ("data", .null), ("demo", .bool true)]).getField
        "data" = some .null := by
  refine ⟨?_, rfl⟩
  have hcond : (jsStartsWith pathname "/api/" || pathname == "/status") = true := by
    rcases hapi with h | h <;> simp [h]
  unfold fetchDispatch
  rw [findRoute_none _ _ _ hnomatch]
  simp [hallow1, hallow2, hm, hcond]

/-- Witness for C7: a GET to the unmatched path `/api/unknown` resolves
to the empty-success fallback payload. -/
theorem fetchDispatch_unmatched_fallback_witness :
    allowlistApis "/api/unknown" = false
    ∧ allowlistAssets "/api/unknown" = false
    ∧ mutatingMethod ((none : Option String).getD "GET") = false
    ∧ (∀ r ∈ MOCK_ROUTES demoInitState, r.rmatch "/api/unknown" "/api/unknown" = false)
    ∧ (jsStartsWith "/api/unknown" "/api/" = true ∨ ("/api/unknown" : String) = "/status")
    ∧ (fetchDispatch (MOCK_ROUTES demoInitState) "/api/unknown" "/api/unknown" none []
          ⟨fun _ => 0, 0⟩
        = (.response 200
             (.obj [("success", .bool true), ("data", .null), ("demo", .bool true)])
             false false, [], ⟨fun _ => 0, 0⟩)
       ∧ (Json.obj [("success", .bool true), ("data", .null),
            ("demo", .bool true)]).getField "data" = some .null) :=
  ⟨by decide, by decide, by decide, by decide, Or.inl (by decide),
   fetchDispatch_unmatched_fallback demoInitState "/api/unknown" "/api/unknown" none []
     ⟨fun _ => 0, 0⟩ (by decide) (by decide) (by decide) (by decide)
     (Or.inl (by decide))⟩

/-- Counterexample to C7 as stated: a POST to the equally unmatched
API-shaped path `/api/unknown` does NOT get the `{success, data, demo}`
fallback payload — the mutating-method branch answers first with
`{success: true, demo: true}`, which carries no `data` field at all
(though it is still a status-200 success, never an error). -/
theorem fetchDispatch_fallback_counterexample :
    ((MOCK_ROUTES demoInitState).all
        (fun r => !(r.rmatch "/api/unknown" "/api/unknown"))) = true
    ∧ jsStartsWith "/api/unknown" "/api/" = true
    ∧ fetchDispatch (MOCK_ROUTES demoInitState) "/api/unknown" "/api/unknown" (some "POST")
          [] ⟨fun _ => 0, 0⟩
        = (.response 200 (.obj [("success", .bool true), ("demo", .bool true)]) false true,
           [], ⟨fun _ => 0, 0⟩)
    ∧ (Json.obj [("success", .bool true), ("demo", .bool true)]).getField "data" = none :=
  ⟨by decide, by decide, rfl, rfl⟩

-- ═══════════════════════════════════════════════════════════════════════════
-- C8: DRIFT AND KILL-SWITCH ROUTES
-- ═══════════════════════════════════════════════════════════════════════════

theorem beq_false_of_includes {p lit pat : String}
    (h : jsIncludes p pat = true) (h2 : jsIncludes lit pat = false) :
    (p == lit) = false := by
  by_cases hpe : p = lit
  · subst hpe
    rw [h] at h2
    exact absurd h2 (by simp)
  · exact beq_eq_false_iff_ne.mpr hpe

/-- The exact-match paths of the routes that precede the drift and
kill-switch entries in `MOCK_ROUTES`. -/
def PRE_DRIFT_EXACT_PATHS : List String :=
  ["/status", "/api/stats", "/api/stats/accurate", "/api/trades", "/api/positions",
   "/api/capital-events", "/api/dashboard/settings", "/api/services", "/api/last_scan",
   "/api/latency", "/api/analytics/comparison", "/api/analytics/equity-symbols",
   "/api/analytics/sessions", "/api/prices", "/api/monitor/status"]

theorem pre_drift_exacts_false {p pat : String} (h : jsIncludes p pat = true)
    (hall : PRE_DRIFT_EXACT_PATHS.all (fun lit => !(jsIncludes lit pat)) = true) :
    ∀ lit ∈ PRE_DRIFT_EXACT_PATHS, (p == lit) = false := by
  intro lit hlit
  apply beq_false_of_includes h
  have hx := List.all_eq_true.mp hall lit hlit
  simpa using hx

/-- C8 (amended): an intercepted request with a non-mutating method (the
claim's "regardless of method, including POST/PUT/DELETE" fails — the
mutating-method branch answers before the route table is consulted, see
`drift_kill_method_counterexample`) whose path contains the `/drift`
marker and does not fall under the earlier candle/alert/error prefix
routes resolves to the fixed inactive drift payload
(`drift_detected: false` with empty positions); likewise a path carrying
the `/kill-switch` or `/kill_switch` marker (and not the `/drift`
marker, whose route precedes it) resolves to the fixed inactive
kill-switch payload (`active: false`, null `activated_at` and `reason`). -/
theorem drift_kill_routes (st : InitState) (url pathname : String) (options : Option String)
    (cache : CandleCache) (rng : Rng)
    (hallow1 : allowlistApis url = false) (hallow2 : allowlistAssets url = false)
    (hm : mutatingMethod (options.getD "GET") = false)
    (hc : jsStartsWith pathname "/api/candles/" = false)
    (ha : jsStartsWith pathname "/api/monitor/alerts" = false)
    (he : jsStartsWith pathname "/api/monitor/errors" = false) :
    (jsIncludes pathname "/drift" = true →
      fetchDispatch (MOCK_ROUTES st) url pathname options cache rng
        = (.response 200 (DRIFT_PAYLOAD st.now) true false, cache, (randInt 20 80 rng).2))
    ∧ (jsIncludes pathname "/drift" = false →
       (jsIncludes pathname "/kill-switch" = true ∨ jsIncludes pathname "/kill_switch" = true) →
      fetchDispatch (MOCK_ROUTES st) url pathname options cache rng
        = (.response 200 KILL_SWITCH_PAYLOAD true false, cache, (randInt 20 80 rng).2)) := by
  constructor
  · intro hdrift
    have hex := pre_drift_exacts_false hdrift (by decide)
    have e1 := hex "/status" (by simp [PRE_DRIFT_EXACT_PATHS])
    have e2 := hex "/api/stats" (by simp [PRE_DRIFT_EXACT_PATHS])
    have e3 := hex "/api/stats/accurate" (by simp [PRE_DRIFT_EXACT_PATHS])
    have e4 := hex "/api/trades" (by simp [PRE_DRIFT_EXACT_PATHS])
    have e5 := hex "/api/positions" (by simp [PRE_DRIFT_EXACT_PATHS])
    have e6 := hex "/api/capital-events" (by simp [PRE_DRIFT_EXACT_PATHS])
    have e7 := hex "/api/dashboard/settings" (by simp [PRE_DRIFT_EXACT_PATHS])
    have e8 := hex "/api/services" (by simp [PRE_DRIFT_EXACT_PATHS])
    have e9 := hex "/api/last_scan" (by simp [PRE_DRIFT_EXACT_PATHS])
    have e10 := hex "/api/latency" (by simp [PRE_DRIFT_EXACT_PATHS])
    have e11 := hex "/api/analytics/comparison" (by simp [PRE_DRIFT_EXACT_PATHS])
    have e12 := hex "/api/analytics/equity-symbols" (by simp [PRE_DRIFT_EXACT_PATHS])
    have e13 := hex "/api/analytics/sessions" (by simp [PRE_DRIFT_EXACT_PATHS])
    have e14 := hex "/api/prices" (by simp [PRE_DRIFT_EXACT_PATHS])
    have e15 := hex "/api/monitor/status" (by simp [PRE_DRIFT_EXACT_PATHS])
    unfold fetchDispatch
    simp [MOCK_ROUTES, findRoute, hallow1, hallow2, hm, hc, ha, he, hdrift,
      e1, e2, e3, e4, e5, e6, e7, e8, e9, e10, e11, e12, e13, e14, e15]
  · intro hdrift hkill
    have hex : ∀ lit ∈ PRE_DRIFT_EXACT_PATHS, (pathname == lit) = false := by
      rcases hkill with hk | hk
      · exact pre_drift_exacts_false hk (by decide)
      · exact pre_drift_exacts_false hk (by decide)
    have hkcond : (jsIncludes pathname "/kill-switch"
        || jsIncludes pathname "/kill_switch") = true := by
      rcases hkill with hk | hk <;> simp [hk]
    have e1 := hex "/status" (by simp [PRE_DRIFT_EXACT_PATHS])
    have e2 := hex "/api/stats" (by simp [PRE_DRIFT_EXACT_PATHS])
    have e3 := hex "/api/stats/accurate" (by simp [PRE_DRIFT_EXACT_PATHS])
    have e4 := hex "/api/trades" (by simp [PRE_DRIFT_EXACT_PATHS])
    have e5 := hex "/api/positions" (by simp [PRE_DRIFT_EXACT_PATHS])
    have e6 := hex "/api/capital-events" (by simp [PRE_DRIFT_EXACT_PATHS])
    have e7 := hex "/api/dashboard/settings" (by simp [PRE_DRIFT_EXACT_PATHS])
    have e8 := hex "/api/services" (by simp [PRE_DRIFT_EXACT_PATHS])
    have e9 := hex "/api/last_scan" (by simp [PRE_DRIFT_EXACT_PATHS])
    have e10 := hex "/api/latency" (by simp [PRE_DRIFT_EXACT_PATHS])
    have e11 := hex "/api/analytics/comparison" (by simp [PRE_DRIFT_EXACT_PATHS])
    have e12 := hex "/api/analytics/equity-symbols" (by simp [PRE_DRIFT_EXACT_PATHS])
    have e13 := hex "/api/analytics/sessions" (by simp [PRE_DRIFT_EXACT_PATHS])
    have e14 := hex "/api/prices" (by simp [PRE_DRIFT_EXACT_PATHS])
    have e15 := hex "/api/monitor/status" (by simp [PRE_DRIFT_EXACT_PATHS])
    unfold fetchDispatch
    simp [MOCK_ROUTES, findRoute, hallow1, hallow2, hm, hc, ha, he, hdrift, hkcond,
      e1, e2, e3, e4, e5, e6, e7, e8, e9, e10, e11, e12, e13, e14, e15]

/-- Witness for C8: GET requests to `/api/drift-check` and
`/api/kill-switch` resolve to the fixed inactive payloads. -/
theorem drift_kill_routes_witness :
    allowlistApis "http://localhost:9100/api/drift-check" = false
    ∧ allowlistAssets "http://localhost:9100/api/drift-check" = false
    ∧ mutatingMethod ((none : Option String).getD "GET") = false
    ∧ jsStartsWith "/api/drift-check" "/api/candles/" = false
    ∧ jsStartsWith "/api/drift-check" "/api/monitor/alerts" = false
    ∧ jsStartsWith "/api/drift-check" "/api/monitor/errors" = false
    ∧ jsIncludes "/api/drift-check" "/drift" = true
    ∧ fetchDispatch (MOCK_ROUTES demoInitState) "http://localhost:9100/api/drift-check"
          "/api/drift-check" none [] ⟨fun _ => 0, 0⟩
        = (.response 200 (DRIFT_PAYLOAD demoInitState.now) true false, [],
           (randInt 20 80 ⟨fun _ => 0, 0⟩).2)
    ∧ jsIncludes "/api/kill-switch" "/drift" = false
    ∧ jsIncludes "/api/kill-switch" "/kill-switch" = true
    ∧ fetchDispatch (MOCK_ROUTES demoInitState) "http://localhost:9200/api/kill-switch"
          "/api/kill-switch" none [] ⟨fun _ => 0, 0⟩
        = (.response 200 KILL_SWITCH_PAYLOAD true false, [],
           (randInt 20 80 ⟨fun _ => 0, 0⟩).2) :=
  ⟨by decide, by decide, by decide, by decide, by decide, by decide, by decide,
   (drift_kill_routes demoInitState "http://localhost:9100/api/drift-check"
       "/api/drift-check" none [] ⟨fun _ => 0, 0⟩ (by decide) (by decide) (by decide)
       (by decide) (by decide) (by decide)).1 (by decide),
   by decide, by decide,
   (drift_kill_routes demoInitState "http://localhost:9200/api/kill-switch"
       "/api/kill-switch" none [] ⟨fun _ => 0, 0⟩ (by decide) (by decide) (by decide)
       (by decide) (by decide) (by decide)).2 (by decide) (Or.inl (by decide))⟩

/-- Counterexample to C8 as stated: a POST request to the drift path
`/api/drift-check` does not receive the fixed drift payload — the
mutating-method branch answers `{success: true, demo: true}` (with no
`drift_detected` field) before the route table is consulted, so the
"regardless of method" half of the claim fails. -/
theorem drift_kill_method_counterexample :
    jsIncludes "/api/drift-check" "/drift" = true
    ∧ fetchDispatch (MOCK_ROUTES demoInitState) "http://localhost:9100/api/drift-check"
          "/api/drift-check" (some "POST") [] ⟨fun _ => 0, 0⟩
        = (.response 200 (.obj [("success", .bool true), ("demo", .bool true)]) false true,
           [], ⟨fun _ => 0, 0⟩)
    ∧ (Json.obj [("success", .bool true), ("demo", .bool true)]).getField "drift_detected"
        = none :=
  ⟨by decide, rfl, rfl⟩

-- ═══════════════════════════════════════════════════════════════════════════
-- C9: MESSAGES AFTER close() — THE CONNECTING-WINDOW RACE
-- ═══════════════════════════════════════════════════════════════════════════

unseal Rat.mul Rat.add Rat.inv Rat.sub Rat.ofScientific in
/-- C9 (code bug): evaluation of the mock WebSocket at the failing
input — `close()` issued during the 300 ms CONNECTING window, then the
constructor's never-cancelled open timeout fires.  The run delivers the
per-event message counts `[0, 1]`: the close event delivers nothing, but
the open-timeout event, arriving AFTER the close, delivers the
"WebSocket connected" message — contradicting the claim that no message
events are ever delivered after `close()`.  Worse, the callback resets
`readyState` to OPEN (1) and installs the recurring interval, which is
then never cleared (the timer leak §5 of the specification warns about). -/
theorem mockWebSocket_close_race :
    ((wsRun 3 wsInit [WSEvent.close 0, WSEvent.openTimer 300] ⟨fun _ => 0, 0⟩).2.1.map
        List.length) = [0, 1]
    ∧ (wsRun 3 wsInit [WSEvent.close 0, WSEvent.openTimer 300] ⟨fun _ => 0, 0⟩).1.readyState
        = 1
    ∧ (wsRun 3 wsInit [WSEvent.close 0, WSEvent.openTimer 300]
          ⟨fun _ => 0, 0⟩).1.intervalActive = true := by
  refine ⟨?_, ?_, ?_⟩ <;> decide

/-- After a close that follows the open (the ordinary disconnect), the
socket is dead: every later event delivers no message and keeps it dead.
This is the half of C9 the code does satisfy; the claim fails only in
the close-before-open race of `mockWebSocket_close_race`. -/
theorem mockWebSocket_close_after_open_safe (pc : ℕ) :
    ∀ (evs : List WSEvent) (s : WSState) (rng : Rng),
      s.readyState = 3 → s.openPending = false → s.intervalActive = false →
      ∀ out ∈ (wsRun pc s evs rng).2.1, out = [] := by
  intro evs
  induction evs with
  | nil =>
    intro s rng _ _ _ out hout
    simp [wsRun] at hout
  | cons ev rest ih =>
    intro s rng h3 hop hint out hout
    have hstep : wsStep pc s ev rng = (s, [], rng) := by
      rcases ev with t | t | t
      · simp [wsStep, hop]
      · simp [wsStep, hint]
      · cases s
        simp_all [wsStep]
    simp only [wsRun, hstep] at hout
    rcases List.mem_cons.mp hout with hout | hout
    · subst hout; rfl
    · exact ih s rng h3 hop hint out hout

end MockData
